import Mathlib

/-!
Shallow embedding of `src/testbed/monitoring/exporter/vpn_exporter.py`.

The exporter probes external tools (`wg show <iface> dump`, `ipsec statusall`,
`/proc/net/dev`, `ping`) and renders Prometheus text-format metric lines.
Each probe invocation is modelled by a `ProbeResult` value (the outcome of
Python's `subprocess.run` / file read, including the exceptions the code
catches); the collectors are pure functions from probe outcomes to the list
of metric lines the Python code appends.  Python string primitives used by
the code (`str.split`, `str.strip`, `str.count`, `re.search` for the two
concrete patterns, decimal rendering of `int`) are given executable
character-list implementations below.
-/

/-- Characters treated as whitespace by Python `str.split()` / `str.strip()`
(ASCII subset, which covers all tool output the exporter reads). -/
def isPySpace (c : Char) : Bool :=
  c = ' ' || c = '\t' || c = '\n' || c = '\r' || c = '\x0b' || c = '\x0c'

/-- ASCII decimal digit, the `\d` class of the code's regexes. -/
def isPyDigit (c : Char) : Bool :=
  '0' ≤ c && c ≤ '9'

/-- Fuelled worker for `pySplit`; fuel bounds the number of consumed
characters, so the recursion is structural and kernel-reducible. -/
def chSplitGo : Nat → List Char → List Char → List Char → List (List Char)
  | _, _, [], acc => [acc.reverse]
  | 0, _, cs, acc => [acc.reverse ++ cs]
  | fuel+1, sep, c :: cs, acc =>
    if (c :: cs).take sep.length = sep then
      acc.reverse :: chSplitGo fuel sep ((c :: cs).drop sep.length) []
    else chSplitGo fuel sep cs (c :: acc)

/-- Python `s.split(sep)` for a nonempty literal separator: non-overlapping
splits scanning left to right, keeping empty chunks. -/
def pySplit (s sep : String) : List String :=
  (chSplitGo s.data.length sep.data s.data []).map String.mk

/-- Python `s.strip()`: drop leading and trailing whitespace. -/
def pyStrip (s : String) : String :=
  String.mk (((s.data.dropWhile isPySpace).reverse.dropWhile isPySpace).reverse)

/-- Worker for `pyFields`: accumulates the current word (reversed). -/
def pyFieldsAux : List Char → List Char → List (List Char)
  | [], acc => if acc.isEmpty then [] else [acc.reverse]
  | c :: cs, acc =>
    if isPySpace c then
      if acc.isEmpty then pyFieldsAux cs [] else acc.reverse :: pyFieldsAux cs []
    else pyFieldsAux cs (c :: acc)

/-- Python `s.split()` (no separator): whitespace-delimited words, empties
discarded. -/
def pyFields (s : String) : List String :=
  (pyFieldsAux s.data []).map String.mk

/-- Python `s.count(sub)` for a nonempty literal: number of non-overlapping
occurrences, scanning left to right. -/
def pyCount (s sub : String) : Nat :=
  (pySplit s sub).length - 1

/-- Fuelled decimal renderer for `natRepr`. -/
def natReprCore : Nat → Nat → List Char → List Char
  | 0, _, acc => acc
  | fuel+1, n, acc =>
    let d := Char.ofNat (48 + n % 10)
    if n < 10 then d :: acc else natReprCore fuel (n / 10) (d :: acc)

/-- Python `str(n)` / f-string rendering of a non-negative `int`. -/
def natRepr (n : Nat) : String :=
  String.mk (natReprCore (n + 1) n [])

/-- Python `s.startswith(p)`, decided on the character lists. -/
def strLeads (p s : String) : Bool :=
  s.data.take p.data.length == p.data

/-- Python `lines = f.readlines()` splitting semantics: chunks keep their
terminating newline and a trailing empty chunk after a final newline is
dropped. -/
def pyReadLinesGo : List String → List String
  | [] => []
  | [last] => if last = ("") then [] else [last]
  | p :: ps => (p ++ "\n") :: pyReadLinesGo ps

/-- Python `f.readlines()` of a file whose full content is `s`. -/
def pyReadLines (s : String) : List String :=
  pyReadLinesGo (pySplit s ("\n"))

/-- Outcome of one external probe: `subprocess.run` completion with an exit
code and captured stdout, or one of the exception classes the code catches
(`FileNotFoundError`, `subprocess.TimeoutExpired`, any other `Exception`). -/
inductive ProbeResult where
  | completed (returncode : Int) (stdout : String)
  | fileNotFound
  | timeout
  | exception
deriving DecidableEq

/-- Process-wide configuration, read once at startup from the environment
(`WIREGUARD_INTERFACE`, `IPSEC_CHECK`). -/
structure Config where
  wireguard_interface : String
  ipsec_check : Bool
deriving DecidableEq

/-- The defaults from the top of `vpn_exporter.py`. -/
def defaultConfig : Config :=
  { wireguard_interface := ("wg0"), ipsec_check := true }

/-- The f-string `vpn_tunnel_status{vpn_type="wireguard",interface="..."} v`. -/
def wgStatusLine (cfg : Config) (v : String) : String :=
  "vpn_tunnel_status\x7bvpn_type=\"wireguard\",interface=\"" ++
    cfg.wireguard_interface ++ "\"\x7d " ++ v

/-- The f-string `vpn_exporter_error{vpn_type="wireguard",error="..."} 1`. -/
def wgErrLine (reason : String) : String :=
  "vpn_exporter_error\x7bvpn_type=\"wireguard\",error=\"" ++ reason ++ "\"\x7d 1"

/-- Truncation of a peer public key for use as a label: `parts[0][:12] + "..."`. -/
def truncKey (pk : String) : String :=
  String.mk (pk.data.take 12) ++ "..."

/-- Receive-byte counter line for one WireGuard peer. -/
def wgRxLine (cfg : Config) (pk ep v : String) : String :=
  "wireguard_peer_receive_bytes_total\x7binterface=\"" ++ cfg.wireguard_interface ++
    "\",public_key=\"" ++ pk ++ "\",endpoint=\"" ++ ep ++ "\"\x7d " ++ v

/-- Transmit-byte counter line for one WireGuard peer. -/
def wgTxLine (cfg : Config) (pk ep v : String) : String :=
  "wireguard_peer_transmit_bytes_total\x7binterface=\"" ++ cfg.wireguard_interface ++
    "\",public_key=\"" ++ pk ++ "\",endpoint=\"" ++ ep ++ "\"\x7d " ++ v

/-- Last-handshake line for one WireGuard peer. -/
def wgHsLine (cfg : Config) (pk v : String) : String :=
  "wireguard_peer_last_handshake_seconds\x7binterface=\"" ++ cfg.wireguard_interface ++
    "\",public_key=\"" ++ pk ++ "\"\x7d " ++ v

/-- Body of the peer loop of `collect_wireguard_metrics`: one `wg show dump`
peer record line yields three samples when it has at least 8 tab-delimited
fields and is skipped otherwise. -/
def peerSamples (cfg : Config) (line : String) : List String :=
  let parts := pySplit line ("\t")
  if 8 ≤ parts.length then
    let public_key := truncKey (parts.getD 0 (""))
    let endpoint :=
      if parts.getD 2 ("") ≠ ("(none)") then parts.getD 2 ("") else ("unknown")
    let rx_bytes := parts.getD 5 ("")
    let tx_bytes := parts.getD 6 ("")
    let latest_handshake := parts.getD 4 ("")
    [wgRxLine cfg public_key endpoint rx_bytes,
     wgTxLine cfg public_key endpoint tx_bytes,
     wgHsLine cfg public_key latest_handshake]
  else []

/-- `VPNMetrics.collect_wireguard_metrics`: probe `wg show <iface> dump`.
On exit code 0 the first line of the stripped stdout is interface info
(Python's `if lines:` is always true since `split` never yields an empty
list) and the remaining lines are peer records; on non-zero exit a down
status is emitted; the caught exceptions yield the diagnostic samples of
the corresponding `except` clauses. -/
def collect_wireguard_metrics (cfg : Config) (r : ProbeResult) : List String :=
  match r with
  | .completed rc out =>
    if rc = 0 then
      let lines := pySplit (pyStrip out) ("\n")
      wgStatusLine cfg ("1") :: (lines.drop 1).flatMap (peerSamples cfg)
    else [wgStatusLine cfg ("0")]
  | .fileNotFound => [wgStatusLine cfg ("0"), wgErrLine ("wg_not_found")]
  | .timeout => [wgErrLine ("timeout")]
  | .exception => [wgErrLine ("exception")]

/-- The f-string `vpn_tunnel_status{vpn_type="ipsec"} v`. -/
def ipsecStatusLine (v : String) : String :=
  "vpn_tunnel_status\x7bvpn_type=\"ipsec\"\x7d " ++ v

/-- The f-string `vpn_exporter_error{vpn_type="ipsec",error="..."} 1`. -/
def ipsecErrLine (reason : String) : String :=
  "vpn_exporter_error\x7bvpn_type=\"ipsec\",error=\"" ++ reason ++ "\"\x7d 1"

/-- One attempt of the regex `(\d+)\s+<suffix>` anchored at the current
position: a maximal nonempty digit run, a nonempty whitespace run, then the
literal suffix.  Backtracking inside `\d+` or `\s+` can never turn a failure
into a success here because digits, whitespace and the suffix head are
disjoint, so maximal munch is exact. -/
def reNumThen (suffix : List Char) (cs : List Char) : Option (List Char) :=
  let ds := cs.takeWhile isPyDigit
  if ds.isEmpty then none
  else
    let r1 := cs.dropWhile isPyDigit
    let ws := r1.takeWhile isPySpace
    if ws.isEmpty then none
    else
      let r2 := r1.dropWhile isPySpace
      if r2.take suffix.length = suffix then some ds else none

/-- Python `re.search(r'(\d+)\s+<suffix>', s)`, returning `group(1)`:
the leftmost position at which `reNumThen` succeeds. -/
def reSearchNum (suffix : List Char) : List Char → Option (List Char)
  | [] => none
  | c :: cs =>
    match reNumThen suffix (c :: cs) with
    | some g => some g
    | none => reSearchNum suffix cs

/-- `VPNMetrics.collect_ipsec_metrics`: probe `ipsec statusall` (skipped
entirely when `IPSEC_CHECK` is false).  On exit code 0 the output is scanned
for keyword occurrence counts and the first `<n> bytes_i` / `<n> bytes_o`
matches; otherwise the corresponding `else` / `except` samples are emitted. -/
def collect_ipsec_metrics (cfg : Config) (r : ProbeResult) : List String :=
  if !cfg.ipsec_check then []
  else
    match r with
    | .completed rc out =>
      if rc = 0 then
        let established := pyCount out ("ESTABLISHED")
        let installed := pyCount out ("INSTALLED")
        ([ipsecStatusLine (if established > 0 then ("1") else ("0")),
          "ipsec_connections_established " ++ natRepr established,
          "ipsec_sas_installed " ++ natRepr installed] ++
         (match reSearchNum ("bytes_i").data out.data with
          | some g => ["ipsec_receive_bytes_total " ++ String.mk g]
          | none => []) ++
         (match reSearchNum ("bytes_o").data out.data with
          | some g => ["ipsec_transmit_bytes_total " ++ String.mk g]
          | none => []))
      else [ipsecStatusLine ("0")]
    | .fileNotFound => [ipsecStatusLine ("0"), ipsecErrLine ("ipsec_not_found")]
    | .timeout => [ipsecErrLine ("timeout")]
    | .exception => [ipsecErrLine ("exception")]

example : collect_wireguard_metrics defaultConfig .timeout =
    [("vpn_exporter_error\x7bvpn_type=\"wireguard\",error=\"timeout\"\x7d 1")] := by
  decide

example : collect_wireguard_metrics defaultConfig
    (.completed 0 ("wg0 priv pub 51820 off\nPK0123456789ABCD\t(none)\t1.2.3.4:51820\t10.0.0.2/32\t1700\t111\t222\t25")) =
    [("vpn_tunnel_status\x7bvpn_type=\"wireguard\",interface=\"wg0\"\x7d 1"),
     ("wireguard_peer_receive_bytes_total\x7binterface=\"wg0\",public_key=\"PK0123456789...\",endpoint=\"1.2.3.4:51820\"\x7d 111"),
     ("wireguard_peer_transmit_bytes_total\x7binterface=\"wg0\",public_key=\"PK0123456789...\",endpoint=\"1.2.3.4:51820\"\x7d 222"),
     ("wireguard_peer_last_handshake_seconds\x7binterface=\"wg0\",public_key=\"PK0123456789...\"\x7d 1700")] := by
  decide

example : collect_ipsec_metrics defaultConfig
    (.completed 0 ("one ESTABLISHED two, 123 bytes_i (5s ago), 456 bytes_o, INSTALLED")) =
    [("vpn_tunnel_status\x7bvpn_type=\"ipsec\"\x7d 1"),
     ("ipsec_connections_established 1"),
     ("ipsec_sas_installed 1"),
     ("ipsec_receive_bytes_total 123"),
     ("ipsec_transmit_bytes_total 456")] := by
  decide

/-- The allow-list `interfaces_of_interest` of interface name prefixes. -/
def interfaces_of_interest : List String :=
  [("wg0"), ("wg1"), ("ipsec0"), ("eth0"), ("ens"), ("enp")]

/-- The f-string `vpn_exporter_error{component="network",error="proc_read_failed"} 1`. -/
def netErrLine : String :=
  "vpn_exporter_error\x7bcomponent=\"network\",error=\"proc_read_failed\"\x7d 1"

/-- One per-interface counter line `vpn_interface_<kind>{interface="..."} v`. -/
def netSampleLine (kind iface v : String) : String :=
  "vpn_interface_" ++ kind ++ "\x7binterface=\"" ++ iface ++ "\"\x7d " ++ v

/-- Body of the line loop of `collect_network_interface_metrics`: one
`/proc/net/dev` data line yields six samples when it has the `name:counters`
shape, a matching name prefix and at least 16 counter fields, and is skipped
otherwise. -/
def netLine (line : String) : List String :=
  let parts := pySplit line (":")
  if parts.length ≠ 2 then []
  else
    let iface := pyStrip (parts.getD 0 (""))
    if !(interfaces_of_interest.any fun p => strLeads p iface) then []
    else
      let stats := pyFields (parts.getD 1 (""))
      if 16 ≤ stats.length then
        let rx_bytes := stats.getD 0 ("")
        let rx_packets := stats.getD 1 ("")
        let rx_errors := stats.getD 2 ("")
        let tx_bytes := stats.getD 8 ("")
        let tx_packets := stats.getD 9 ("")
        let tx_errors := stats.getD 10 ("")
        [netSampleLine ("rx_bytes") iface rx_bytes,
         netSampleLine ("tx_bytes") iface tx_bytes,
         netSampleLine ("rx_packets") iface rx_packets,
         netSampleLine ("tx_packets") iface tx_packets,
         netSampleLine ("rx_errors") iface rx_errors,
         netSampleLine ("tx_errors") iface tx_errors]
      else []

/-- `VPNMetrics.collect_network_interface_metrics`: read `/proc/net/dev`
(`none` models any exception while opening or reading the file), skip the
two header lines, and process each remaining line. -/
def collect_network_interface_metrics (content : Option String) : List String :=
  match content with
  | some s => ((pyReadLines s).drop 2).flatMap netLine
  | none => [netErrLine]

/-- Digit-or-dot, the `[\d.]` class of the ping regex. -/
def isDigitDot (c : Char) : Bool :=
  isPyDigit c || c = '.'

/-- One attempt of `avg[^=]+=\s*[\d.]+/([\d.]+)/` anchored at the current
position, returning `group(1)`.  `[^=]+` cannot cross an `=`, and the runs
consumed by `\s*` and `[\d.]+` are followed by characters outside their own
classes, so greedy maximal munch is exact and no backtracking case is lost. -/
def pingMatchAt (cs : List Char) : Option (List Char) :=
  if cs.take 3 = ("avg").data then
    let r0 := cs.drop 3
    if (r0.takeWhile fun c => c ≠ '=').isEmpty then none
    else
      match r0.dropWhile fun c => c ≠ '=' with
      | '=' :: r2 =>
        let r3 := r2.dropWhile isPySpace
        if (r3.takeWhile isDigitDot).isEmpty then none
        else
          match r3.dropWhile isDigitDot with
          | '/' :: r4 =>
            let n2 := r4.takeWhile isDigitDot
            if n2.isEmpty then none
            else
              match r4.dropWhile isDigitDot with
              | '/' :: _ => some n2
              | _ => none
          | _ => none
      | _ => none
  else none

/-- Python `re.search(r'avg[^=]+=\s*[\d.]+/([\d.]+)/', s)`, returning
`group(1)`: the leftmost position at which `pingMatchAt` succeeds. -/
def pingSearch : List Char → Option (List Char)
  | [] => none
  | c :: cs =>
    match pingMatchAt (c :: cs) with
    | some n => some n
    | none => pingSearch cs

/-- Python `float(g)` followed by f-string rendering, for a `group(1)` text
`g` drawn from `[\d.]+`: fails (ValueError) unless `g` has at least one
digit and at most one dot; otherwise renders the decimal value with leading
zeros dropped, trailing fractional zeros dropped, and a mandatory single
`.` as Python's shortest-round-trip float repr does on the short decimal
literals produced by `ping` summaries.  (For decimals long enough that the
shortest double repr differs from this canonical form the model diverges
from CPython; no property below depends on that regime.) -/
def pyFloatCanon (g : List Char) : Option String :=
  if g.all isDigitDot && g.any isPyDigit &&
      (g.filter fun c => c = '.').length ≤ 1 then
    let ip := g.takeWhile fun c => c ≠ '.'
    let fp := (g.dropWhile fun c => c ≠ '.').drop 1
    let ipn := ip.dropWhile fun c => c = '0'
    let ipn := if ipn.isEmpty then ['0'] else ipn
    let fpn := (fp.reverse.dropWhile fun c => c = '0').reverse
    let fpn := if fpn.isEmpty then ['0'] else fpn
    some (String.mk (ipn ++ '.' :: fpn))
  else none

/-- The fixed `targets` list of `collect_latency_metrics`. -/
def ping_targets : List (String × String) :=
  [(("10.10.10.2"), ("wireguard"))]

/-- The f-string `vpn_latency_ms{vpn_type="...",target="..."} v`. -/
def latencyLine (vpn_type target v : String) : String :=
  "vpn_latency_ms\x7bvpn_type=\"" ++ vpn_type ++ "\",target=\"" ++ target ++ "\"\x7d " ++ v

/-- Body of the target loop of `collect_latency_metrics`: a successful ping
whose summary matches the average-latency regex and whose `group(1)` parses
as a float yields one sample; every failure (non-zero exit, no match,
ValueError, or any caught exception) yields none. -/
def latencySample (ping : String → ProbeResult) (t : String × String) : List String :=
  match ping t.1 with
  | .completed rc out =>
    if rc = 0 then
      match pingSearch out.data with
      | some g =>
        match pyFloatCanon g with
        | some v => [latencyLine t.2 t.1 v]
        | none => []
      | none => []
    else []
  | _ => []

/-- `VPNMetrics.collect_latency_metrics`: ping each fixed target. -/
def collect_latency_metrics (ping : String → ProbeResult) : List String :=
  ping_targets.flatMap (latencySample ping)

/-- The external inputs one scrape reads: the four probe outcomes and the
clock sampled by `int(time.time())`. -/
structure SystemState where
  wg : ProbeResult
  ipsec : ProbeResult
  netdev : Option String
  ping : String → ProbeResult
  clock : Nat

/-- The fixed `# HELP` / `# TYPE` block appended at the top of
`collect_all`. -/
def headerLines : List String :=
  [("# HELP vpn_tunnel_status VPN tunnel status (1=up, 0=down)"),
   ("# TYPE vpn_tunnel_status gauge"),
   ("# HELP wireguard_peer_receive_bytes_total Total bytes received from WireGuard peer"),
   ("# TYPE wireguard_peer_receive_bytes_total counter"),
   ("# HELP wireguard_peer_transmit_bytes_total Total bytes sent to WireGuard peer"),
   ("# TYPE wireguard_peer_transmit_bytes_total counter"),
   ("# HELP vpn_latency_ms VPN tunnel latency in milliseconds"),
   ("# TYPE vpn_latency_ms gauge"),
   ("# HELP vpn_interface_rx_bytes Network interface received bytes"),
   ("# TYPE vpn_interface_rx_bytes counter"),
   ("# HELP vpn_interface_tx_bytes Network interface transmitted bytes"),
   ("# TYPE vpn_interface_tx_bytes counter"),
   ("# HELP ipsec_connections_established Number of established IPsec connections"),
   ("# TYPE ipsec_connections_established gauge")]

/-- The exporter-info block appended at the bottom of `collect_all`. -/
def tailLines (clock : Nat) : List String :=
  [("# HELP vpn_exporter_info VPN metrics exporter info"),
   ("# TYPE vpn_exporter_info gauge"),
   ("vpn_exporter_info\x7bversion=\"1.0.0\"\x7d 1"),
   "vpn_exporter_scrape_timestamp " ++ natRepr clock]

/-- The `all_metrics` list assembled by `VPNMetrics.collect_all`. -/
def collect_all_lines (cfg : Config) (st : SystemState) : List String :=
  headerLines ++
    collect_wireguard_metrics cfg st.wg ++
    collect_ipsec_metrics cfg st.ipsec ++
    collect_network_interface_metrics st.netdev ++
    collect_latency_metrics st.ping ++
    tailLines st.clock

/-- `VPNMetrics.collect_all`: `'\n'.join(all_metrics) + '\n'`. -/
def collect_all (cfg : Config) (st : SystemState) : String :=
  String.intercalate ("\n") (collect_all_lines cfg st) ++ "\n"

/-- An HTTP response as assembled by `MetricsHandler.do_GET`. -/
structure Response where
  status : Nat
  contentType : Option String
  body : String
deriving DecidableEq

/-- `MetricsHandler.do_GET`: `/metrics` runs a fresh collection and returns
its rendering, `/health` returns `OK`, anything else is 404. -/
def do_GET (cfg : Config) (path : String) (st : SystemState) : Response :=
  if path = ("/metrics") then
    { status := 200, contentType := some ("text/plain; charset=utf-8"),
      body := collect_all cfg st }
  else if path = ("/health") then
    { status := 200, contentType := some ("text/plain"), body := ("OK") }
  else
    { status := 404, contentType := none, body := ("") }

example : collect_network_interface_metrics
    (some ("h1\nh2\n  wg0: 1000 10 0 0 0 0 0 0 2000 20 0 0 0 0 0 0\n    lo: 5 5 0 0 0 0 0 0 5 5 0 0 0 0 0 0\n")) =
    [("vpn_interface_rx_bytes\x7binterface=\"wg0\"\x7d 1000"),
     ("vpn_interface_tx_bytes\x7binterface=\"wg0\"\x7d 2000"),
     ("vpn_interface_rx_packets\x7binterface=\"wg0\"\x7d 10"),
     ("vpn_interface_tx_packets\x7binterface=\"wg0\"\x7d 20"),
     ("vpn_interface_rx_errors\x7binterface=\"wg0\"\x7d 0"),
     ("vpn_interface_tx_errors\x7binterface=\"wg0\"\x7d 0")] := by
  decide

example : collect_latency_metrics
    (fun _ => .completed 0 ("rtt min/avg/max/mdev = 0.045/0.520/0.061/0.007 ms")) =
    [("vpn_latency_ms\x7bvpn_type=\"wireguard\",target=\"10.10.10.2\"\x7d 0.52")] := by
  decide

/-- A rendered line is a sample line (not a `# HELP` / `# TYPE` comment). -/
def isSampleLine (l : String) : Bool :=
  !(strLeads ("#") l)

/-- Drop the trailing characters of a reversed line up to and including the
first space: the reversed series identifier. -/
def chopValue : List Char → List Char
  | [] => []
  | c :: cs => if c = ' ' then cs else chopValue cs

/-- The series identifier of a sample line (metric name plus label block):
everything before the last space, i.e. before the rendered value. -/
def lineKey (s : String) : List Char :=
  (chopValue s.data.reverse).reverse

theorem strEq_of_data {a b : String} (h : a.data = b.data) : a = b := by
  cases a
  cases b
  exact congrArg String.mk h

theorem strData_append (a b : String) : (a ++ b).data = a.data ++ b.data :=
  String.data_append a b

theorem strAppend_cancel_left {a b c : String} (h : a ++ b = a ++ c) : b = c := by
  apply strEq_of_data
  have h' := congrArg String.data h
  rw [strData_append, strData_append] at h'
  exact List.append_cancel_left h'

theorem strLeads_append_left (p a x : String) (h : p.data.length ≤ a.data.length) :
    strLeads p (a ++ x) = strLeads p a := by
  unfold strLeads
  rw [strData_append, List.take_append_of_le_length h]

theorem strLeads_false_head (p a x : String) (h : p.data.length ≤ a.data.length)
    (hp : strLeads p a = false) : strLeads p (a ++ x) = false := by
  rw [strLeads_append_left p a x h]
  exact hp

theorem strLeads_true_head (p a x : String) (h : p.data.length ≤ a.data.length)
    (hp : strLeads p a = true) : strLeads p (a ++ x) = true := by
  rw [strLeads_append_left p a x h]
  exact hp

theorem sentinel_append_inj {c : Char} {a : List Char} : ∀ {b x y : List Char},
    c ∉ a → c ∉ b → a ++ c :: x = b ++ c :: y → a = b ∧ x = y := by
  induction a with
  | nil =>
    intro b x y _ hb h
    cases b with
    | nil => simpa using h
    | cons b' bs =>
      simp only [List.nil_append, List.cons_append, List.cons.injEq] at h
      exact absurd (h.1 ▸ List.mem_cons_self c _) hb
  | cons a' as ih =>
    intro b x y ha hb h
    cases b with
    | nil =>
      simp only [List.nil_append, List.cons_append, List.cons.injEq] at h
      exact absurd (h.1.symm ▸ List.mem_cons_self a' _) ha
    | cons b' bs =>
      simp only [List.cons_append, List.cons.injEq] at h
      have ha' : c ∉ as := fun hm => ha (List.mem_cons_of_mem _ hm)
      have hb' : c ∉ bs := fun hm => hb (List.mem_cons_of_mem _ hm)
      obtain ⟨he, ht⟩ := ih ha' hb' h.2
      exact ⟨by rw [h.1, he], ht⟩

theorem chopValue_no_space : ∀ {v : List Char}, ' ' ∉ v →
    ∀ k, chopValue (v ++ ' ' :: k) = k := by
  intro v
  induction v with
  | nil => intro _ k; simp [chopValue]
  | cons c cs ih =>
    intro h k
    have hc : ¬(c = ' ') := fun he => h (he ▸ List.mem_cons_self c _)
    have h' : ' ' ∉ cs := fun hm => h (List.mem_cons_of_mem _ hm)
    simp only [List.cons_append, chopValue, if_neg hc]
    exact ih h' k

theorem chopValue_after : ∀ (x k : List Char), ∃ u, chopValue (x ++ ' ' :: k) = u ++ k := by
  intro x
  induction x with
  | nil => intro k; exact ⟨[], by simp [chopValue]⟩
  | cons c cs ih =>
    intro k
    by_cases hc : c = ' '
    · exact ⟨cs ++ [' '], by simp [chopValue, hc]⟩
    · obtain ⟨u, hu⟩ := ih k
      exact ⟨u, by simp only [List.cons_append, chopValue, if_neg hc]; exact hu⟩

theorem lineKey_exact {s : String} {k v : List Char} (hs : s.data = k ++ ' ' :: v)
    (hv : ' ' ∉ v) : lineKey s = k := by
  unfold lineKey
  rw [hs]
  have : (k ++ ' ' :: v).reverse = v.reverse ++ ' ' :: k.reverse := by
    rw [List.reverse_append, List.reverse_cons, List.append_assoc, List.singleton_append]
  rw [this, chopValue_no_space (fun hm => hv (List.mem_reverse.mp hm)) k.reverse,
    List.reverse_reverse]

theorem lineKey_context {s : String} {k v : List Char} (hs : s.data = k ++ ' ' :: v) :
    ∃ u, lineKey s = k ++ u := by
  unfold lineKey
  rw [hs]
  have : (k ++ ' ' :: v).reverse = v.reverse ++ ' ' :: k.reverse := by
    rw [List.reverse_append, List.reverse_cons, List.append_assoc, List.singleton_append]
  rw [this]
  obtain ⟨u, hu⟩ := chopValue_after v.reverse k.reverse
  exact ⟨u.reverse, by rw [hu, List.reverse_append, List.reverse_reverse]⟩

theorem take_of_head {k : List Char} (n : Nat) (u : List Char) (h : n ≤ k.length) :
    (k ++ u).take n = k.take n :=
  List.take_append_of_le_length h

theorem ne_of_take_ne {a b : List Char} (k : Nat) (h : a.take k ≠ b.take k) : a ≠ b :=
  fun he => h (he ▸ rfl)

theorem mem_collect_all_of_header {x : String} (cfg : Config) (st : SystemState)
    (hx : x ∈ headerLines) : x ∈ collect_all_lines cfg st := by
  unfold collect_all_lines
  simp only [List.mem_append]
  tauto

theorem mem_collect_all_of_tail {x : String} (cfg : Config) (st : SystemState)
    (hx : x ∈ tailLines st.clock) : x ∈ collect_all_lines cfg st := by
  unfold collect_all_lines
  simp only [List.mem_append]
  tauto

theorem mem_collect_all_of_wg {x : String} (cfg : Config) (st : SystemState)
    (hx : x ∈ collect_wireguard_metrics cfg st.wg) : x ∈ collect_all_lines cfg st := by
  unfold collect_all_lines
  simp only [List.mem_append]
  tauto

theorem mem_collect_all_of_ipsec {x : String} (cfg : Config) (st : SystemState)
    (hx : x ∈ collect_ipsec_metrics cfg st.ipsec) : x ∈ collect_all_lines cfg st := by
  unfold collect_all_lines
  simp only [List.mem_append]
  tauto

theorem mem_collect_all_of_net {x : String} (cfg : Config) (st : SystemState)
    (hx : x ∈ collect_network_interface_metrics st.netdev) : x ∈ collect_all_lines cfg st := by
  unfold collect_all_lines
  simp only [List.mem_append]
  tauto

/-- C10: when the wireguard probe (or, with the IPsec subsystem enabled, the
ipsec probe) times out, the collector emits exactly one sample — the
`vpn_exporter_error{...,error="timeout"} 1` diagnostic — and no
`vpn_tunnel_status` sample for that subsystem. -/
theorem c10_timeout_yields_only_error_sample (cfg : Config) (hc : cfg.ipsec_check = true) :
    collect_wireguard_metrics cfg .timeout = [wgErrLine ("timeout")] ∧
    (∀ l ∈ collect_wireguard_metrics cfg .timeout,
      strLeads ("vpn_tunnel_status") l = false) ∧
    collect_ipsec_metrics cfg .timeout = [ipsecErrLine ("timeout")] ∧
    (∀ l ∈ collect_ipsec_metrics cfg .timeout,
      strLeads ("vpn_tunnel_status") l = false) := by
  refine ⟨rfl, ?_, ?_, ?_⟩
  · intro l hl
    simp only [collect_wireguard_metrics, List.mem_singleton] at hl
    subst hl
    decide
  · simp [collect_ipsec_metrics, hc]
  · intro l hl
    simp only [collect_ipsec_metrics, hc, Bool.not_true, Bool.false_eq_true, if_false,
      List.mem_singleton] at hl
    subst hl
    decide

/-- C10 witness: the timeout branches at the default configuration. -/
theorem c10_witness :
    collect_wireguard_metrics defaultConfig .timeout = [wgErrLine ("timeout")] ∧
    collect_ipsec_metrics defaultConfig .timeout = [ipsecErrLine ("timeout")] :=
  ⟨(c10_timeout_yields_only_error_sample defaultConfig rfl).1,
   (c10_timeout_yields_only_error_sample defaultConfig rfl).2.2.1⟩

/-- C7: IKE status text with exactly 2 `ESTABLISHED` and 3 `INSTALLED`
occurrences yields the samples `ipsec_connections_established 2` and
`ipsec_sas_installed 3`. -/
theorem c7_ike_keyword_counts (cfg : Config) (out : String) (hc : cfg.ipsec_check = true)
    (he : pyCount out ("ESTABLISHED") = 2) (hi : pyCount out ("INSTALLED") = 3) :
    ("ipsec_connections_established 2") ∈ collect_ipsec_metrics cfg (.completed 0 out) ∧
    ("ipsec_sas_installed 3") ∈ collect_ipsec_metrics cfg (.completed 0 out) := by
  have hrw : collect_ipsec_metrics cfg (.completed 0 out) =
      ([ipsecStatusLine (if pyCount out ("ESTABLISHED") > 0 then ("1") else ("0")),
        "ipsec_connections_established " ++ natRepr (pyCount out ("ESTABLISHED")),
        "ipsec_sas_installed " ++ natRepr (pyCount out ("INSTALLED"))] ++
       (match reSearchNum ("bytes_i").data out.data with
        | some g => ["ipsec_receive_bytes_total " ++ String.mk g]
        | none => []) ++
       (match reSearchNum ("bytes_o").data out.data with
        | some g => ["ipsec_transmit_bytes_total " ++ String.mk g]
        | none => [])) := by
    simp [collect_ipsec_metrics, hc]
  rw [hrw, he, hi]
  constructor
  · rw [show ("ipsec_connections_established 2") =
        "ipsec_connections_established " ++ natRepr 2 from rfl]
    simp [List.mem_append]
  · rw [show ("ipsec_sas_installed 3") = "ipsec_sas_installed " ++ natRepr 3 from rfl]
    simp [List.mem_append]

/-- Concrete IKE status text with 2 `ESTABLISHED` and 3 `INSTALLED`. -/
def ikeSampleText : String :=
  "conn1 ESTABLISHED 10s ago; conn2 ESTABLISHED 20s ago; INSTALLED INSTALLED INSTALLED"

/-- C7 witness: the keyword-count scenario at a concrete status text. -/
theorem c7_witness :
    ("ipsec_connections_established 2") ∈
      collect_ipsec_metrics defaultConfig (.completed 0 ikeSampleText) ∧
    ("ipsec_sas_installed 3") ∈
      collect_ipsec_metrics defaultConfig (.completed 0 ikeSampleText) :=
  c7_ike_keyword_counts defaultConfig ikeSampleText rfl (by decide) (by decide)

/-- C9: a successful dump with zero peer records still yields the
wireguard status-1 sample and no peer-counter samples. -/
theorem c9_zero_peer_dump (cfg : Config) (out : String)
    (h : (pySplit (pyStrip out) ("\n")).length = 1) :
    collect_wireguard_metrics cfg (.completed 0 out) = [wgStatusLine cfg ("1")] := by
  obtain ⟨x, hx⟩ := List.length_eq_one.mp h
  simp [collect_wireguard_metrics, hx]

/-- C9 witness: a dump whose stripped stdout is a single interface line. -/
theorem c9_witness :
    collect_wireguard_metrics defaultConfig (.completed 0 ("wg0 private public 51820 off")) =
      [wgStatusLine defaultConfig ("1")] :=
  c9_zero_peer_dump defaultConfig ("wg0 private public 51820 off") (by decide)

set_option maxRecDepth 4000 in
/-- C8: a kernel interface table with a well-formed `wg0` line
(rx_bytes=1000, tx_bytes=2000) and an `lo` line yields exactly the six
`wg0` samples and nothing for `lo`. -/
theorem c8_kernel_table_allow_list :
    collect_network_interface_metrics
      (some ("Inter-|   Receive|  Transmit\n face |bytes    packets|bytes    packets\n  wg0: 1000 10 0 0 0 0 0 0 2000 20 0 0 0 0 0 0\n    lo: 555 5 0 0 0 0 0 0 555 5 0 0 0 0 0 0\n")) =
    [netSampleLine ("rx_bytes") ("wg0") ("1000"),
     netSampleLine ("tx_bytes") ("wg0") ("2000"),
     netSampleLine ("rx_packets") ("wg0") ("10"),
     netSampleLine ("tx_packets") ("wg0") ("20"),
     netSampleLine ("rx_errors") ("wg0") ("0"),
     netSampleLine ("tx_errors") ("wg0") ("0")] := by
  decide

/-- C2 counterexample: a non-zero exit of the wireguard tool yields only
the down-status sample — no `vpn_exporter_error` diagnostic sample is
emitted, contradicting the claim that Unavailable and ExecutionError
outcomes always carry both. -/
theorem c2_counterexample :
    collect_wireguard_metrics defaultConfig (.completed 1 ("")) =
      [wgStatusLine defaultConfig ("0")] ∧
    (collect_wireguard_metrics defaultConfig (.completed 1 (""))).all
      (fun l => !(strLeads ("vpn_exporter_error") l)) = true := by
  decide

/-- C2 amended: binary-not-found yields the down-status sample plus the
error diagnostic; a non-zero exit yields only the down-status sample (no
diagnostic); a generic exception yields only the diagnostic; exit code 0
yields a leading wireguard status-1 sample, while the leading ipsec status
sample is 1 exactly when `ESTABLISHED` occurs in the output. -/
theorem c2_amended_probe_outcome_samples (cfg : Config) (hc : cfg.ipsec_check = true) :
    (collect_wireguard_metrics cfg .fileNotFound =
      [wgStatusLine cfg ("0"), wgErrLine ("wg_not_found")]) ∧
    (∀ rc out, rc ≠ 0 →
      collect_wireguard_metrics cfg (.completed rc out) = [wgStatusLine cfg ("0")]) ∧
    (∀ out, (collect_wireguard_metrics cfg (.completed 0 out)).head? =
      some (wgStatusLine cfg ("1"))) ∧
    (collect_wireguard_metrics cfg .exception = [wgErrLine ("exception")]) ∧
    (collect_ipsec_metrics cfg .fileNotFound =
      [ipsecStatusLine ("0"), ipsecErrLine ("ipsec_not_found")]) ∧
    (∀ rc out, rc ≠ 0 →
      collect_ipsec_metrics cfg (.completed rc out) = [ipsecStatusLine ("0")]) ∧
    (∀ out, (collect_ipsec_metrics cfg (.completed 0 out)).head? =
      some (ipsecStatusLine
        (if pyCount out ("ESTABLISHED") > 0 then ("1") else ("0")))) ∧
    (collect_ipsec_metrics cfg .exception = [ipsecErrLine ("exception")]) := by
  refine ⟨rfl, ?_, ?_, rfl, ?_, ?_, ?_, ?_⟩
  · intro rc out hrc
    simp [collect_wireguard_metrics, hrc]
  · intro out
    simp [collect_wireguard_metrics]
  · simp [collect_ipsec_metrics, hc]
  · intro rc out hrc
    simp [collect_ipsec_metrics, hc, hrc]
  · intro out
    simp [collect_ipsec_metrics, hc]
  · simp [collect_ipsec_metrics, hc]

/-- C2 witness: two branches of the amended statement at concrete inputs. -/
theorem c2_amended_witness :
    collect_wireguard_metrics defaultConfig .fileNotFound =
      [wgStatusLine defaultConfig ("0"), wgErrLine ("wg_not_found")] ∧
    collect_ipsec_metrics defaultConfig (.completed 2 ("boom")) = [ipsecStatusLine ("0")] :=
  ⟨(c2_amended_probe_outcome_samples defaultConfig rfl).1,
   (c2_amended_probe_outcome_samples defaultConfig rfl).2.2.2.2.2.1 2 ("boom") (by decide)⟩

/-- A scrape state in which every probe fails. -/
def failState : SystemState :=
  { wg := .fileNotFound, ipsec := .fileNotFound, netdev := none,
    ping := fun _ => .fileNotFound, clock := 1700000000 }

set_option maxRecDepth 8000 in
/-- C6 counterexample: the `vpn_exporter_scrape_timestamp` sample is always
emitted, but no `# HELP` / `# TYPE` header for that family appears anywhere
in the document, contradicting the claim that every emitted sample belongs
to a family with header comments. -/
theorem c6_counterexample :
    ("vpn_exporter_scrape_timestamp 1700000000") ∈
      collect_all_lines defaultConfig failState ∧
    (collect_all_lines defaultConfig failState).all
      (fun l => !(strLeads ("# HELP vpn_exporter_scrape_timestamp") l)) = true ∧
    (collect_all_lines defaultConfig failState).all
      (fun l => !(strLeads ("# TYPE vpn_exporter_scrape_timestamp") l)) = true := by
  decide

/-- C6 amended: every document contains the `# HELP` / `# TYPE` pair for the
eight families declared by `collect_all` (`vpn_tunnel_status`,
`wireguard_peer_receive_bytes_total`, `wireguard_peer_transmit_bytes_total`,
`vpn_latency_ms`, `vpn_interface_rx_bytes`, `vpn_interface_tx_bytes`,
`ipsec_connections_established`, `vpn_exporter_info`); the remaining
emittable families (`wireguard_peer_last_handshake_seconds`,
`ipsec_sas_installed`, `ipsec_receive_bytes_total`,
`ipsec_transmit_bytes_total`, the `vpn_interface_*` packet/error counters,
`vpn_exporter_error` and `vpn_exporter_scrape_timestamp`) have no header
comments. -/
theorem c6_amended_declared_family_headers (cfg : Config) (st : SystemState) :
    ("# HELP vpn_tunnel_status VPN tunnel status (1=up, 0=down)") ∈
      collect_all_lines cfg st ∧
    ("# TYPE vpn_tunnel_status gauge") ∈ collect_all_lines cfg st ∧
    ("# HELP wireguard_peer_receive_bytes_total Total bytes received from WireGuard peer") ∈
      collect_all_lines cfg st ∧
    ("# TYPE wireguard_peer_receive_bytes_total counter") ∈ collect_all_lines cfg st ∧
    ("# HELP wireguard_peer_transmit_bytes_total Total bytes sent to WireGuard peer") ∈
      collect_all_lines cfg st ∧
    ("# TYPE wireguard_peer_transmit_bytes_total counter") ∈ collect_all_lines cfg st ∧
    ("# HELP vpn_latency_ms VPN tunnel latency in milliseconds") ∈
      collect_all_lines cfg st ∧
    ("# TYPE vpn_latency_ms gauge") ∈ collect_all_lines cfg st ∧
    ("# HELP vpn_interface_rx_bytes Network interface received bytes") ∈
      collect_all_lines cfg st ∧
    ("# TYPE vpn_interface_rx_bytes counter") ∈ collect_all_lines cfg st ∧
    ("# HELP vpn_interface_tx_bytes Network interface transmitted bytes") ∈
      collect_all_lines cfg st ∧
    ("# TYPE vpn_interface_tx_bytes counter") ∈ collect_all_lines cfg st ∧
    ("# HELP ipsec_connections_established Number of established IPsec connections") ∈
      collect_all_lines cfg st ∧
    ("# TYPE ipsec_connections_established gauge") ∈ collect_all_lines cfg st ∧
    ("# HELP vpn_exporter_info VPN metrics exporter info") ∈ collect_all_lines cfg st ∧
    ("# TYPE vpn_exporter_info gauge") ∈ collect_all_lines cfg st := by
  refine ⟨?_, ?_, ?_, ?_, ?_, ?_, ?_, ?_, ?_, ?_, ?_, ?_, ?_, ?_, ?_, ?_⟩
  all_goals first
    | exact mem_collect_all_of_header cfg st (by decide)
    | exact mem_collect_all_of_tail cfg st (by simp [tailLines])

/-- A scrape in which every probe succeeds except the latency ping, which
times out; the ipsec text has an ESTABLISHED connection so no down-status
sample appears anywhere. -/
def pingOnlyFailState : SystemState :=
  { wg := .completed 0 ("wg0 priv pub 51820 off"),
    ipsec := .completed 0 ("conn1: ESTABLISHED 10s ago"),
    netdev := some ("Inter-|   Receive|  Transmit\n face |bytes    packets|bytes    packets\n  wg0: 1000 10 0 0 0 0 0 0 2000 20 0 0 0 0 0 0\n"),
    ping := fun _ => .timeout,
    clock := 1700000000 }

set_option maxRecDepth 16000 in
/-- C1 counterexample: when the latency probe times out, the
`except ... pass` handler swallows it — the rendered document contains no
latency sample, no down-status sample for it, and no error-diagnostic
sample at all, so the probe error is not converted into either form. -/
theorem c1_counterexample :
    pingOnlyFailState.ping ("10.10.10.2") = .timeout ∧
    collect_latency_metrics pingOnlyFailState.ping = [] ∧
    (collect_all_lines defaultConfig pingOnlyFailState).all
      (fun l => !(strLeads ("vpn_latency") l)) = true ∧
    (collect_all_lines defaultConfig pingOnlyFailState).all
      (fun l => !(strLeads ("vpn_exporter_error") l)) = true := by
  decide

/-- C1 amended: every `/metrics` scrape responds with HTTP 200 and a
well-formed, newline-terminated, non-empty metrics document, for every
combination of probe outcomes; each failing wireguard, ipsec, or
kernel-table probe is surfaced inside the body as a down-status sample or
a self-diagnostic error sample, never as an HTTP-level failure; a failing
latency probe, however, is silently swallowed and contributes no sample of
either kind. -/
theorem c1_amended_metrics_scrape (cfg : Config) (st : SystemState) :
    (do_GET cfg ("/metrics") st).status = 200 ∧
    (do_GET cfg ("/metrics") st).body = collect_all cfg st ∧
    collect_all cfg st =
      String.intercalate ("\n") (collect_all_lines cfg st) ++ "\n" ∧
    collect_all_lines cfg st ≠ [] ∧
    (collect_all cfg st).data.getLast? = some '\n' ∧
    collect_all cfg st ≠ ("") ∧
    (st.wg = .fileNotFound →
      wgStatusLine cfg ("0") ∈ collect_all_lines cfg st ∧
      wgErrLine ("wg_not_found") ∈ collect_all_lines cfg st) ∧
    (st.wg = .timeout → wgErrLine ("timeout") ∈ collect_all_lines cfg st) ∧
    (st.wg = .exception → wgErrLine ("exception") ∈ collect_all_lines cfg st) ∧
    (∀ rc out, st.wg = .completed rc out → rc ≠ 0 →
      wgStatusLine cfg ("0") ∈ collect_all_lines cfg st) ∧
    (cfg.ipsec_check = true →
      (st.ipsec = .fileNotFound →
        ipsecStatusLine ("0") ∈ collect_all_lines cfg st ∧
        ipsecErrLine ("ipsec_not_found") ∈ collect_all_lines cfg st) ∧
      (st.ipsec = .timeout → ipsecErrLine ("timeout") ∈ collect_all_lines cfg st) ∧
      (st.ipsec = .exception → ipsecErrLine ("exception") ∈ collect_all_lines cfg st) ∧
      (∀ rc out, st.ipsec = .completed rc out → rc ≠ 0 →
        ipsecStatusLine ("0") ∈ collect_all_lines cfg st)) ∧
    (st.netdev = none → netErrLine ∈ collect_all_lines cfg st) ∧
    (st.ping ("10.10.10.2") = .fileNotFound → collect_latency_metrics st.ping = []) ∧
    (st.ping ("10.10.10.2") = .timeout → collect_latency_metrics st.ping = []) ∧
    (st.ping ("10.10.10.2") = .exception → collect_latency_metrics st.ping = []) ∧
    (∀ rc pout, st.ping ("10.10.10.2") = .completed rc pout → rc ≠ 0 →
      collect_latency_metrics st.ping = []) := by
  have hlast : (collect_all cfg st).data.getLast? = some '\n' := by
    show (String.intercalate ("\n") (collect_all_lines cfg st) ++ "\n").data.getLast? =
      some '\n'
    rw [strData_append, List.getLast?_append]
    rfl
  refine ⟨rfl, rfl, rfl, ?_, hlast, ?_, ?_, ?_, ?_, ?_, ?_, ?_, ?_, ?_, ?_, ?_⟩
  · simp [collect_all_lines, headerLines]
  · intro he
    rw [he] at hlast
    exact absurd hlast (by decide)
  · intro h
    constructor
    · exact mem_collect_all_of_wg cfg st (by rw [h]; simp [collect_wireguard_metrics])
    · exact mem_collect_all_of_wg cfg st (by rw [h]; simp [collect_wireguard_metrics])
  · intro h
    exact mem_collect_all_of_wg cfg st (by rw [h]; simp [collect_wireguard_metrics])
  · intro h
    exact mem_collect_all_of_wg cfg st (by rw [h]; simp [collect_wireguard_metrics])
  · intro rc out h hrc
    exact mem_collect_all_of_wg cfg st (by rw [h]; simp [collect_wireguard_metrics, hrc])
  · intro hc
    refine ⟨?_, ?_, ?_, ?_⟩
    · intro h
      constructor
      · exact mem_collect_all_of_ipsec cfg st (by rw [h]; simp [collect_ipsec_metrics, hc])
      · exact mem_collect_all_of_ipsec cfg st (by rw [h]; simp [collect_ipsec_metrics, hc])
    · intro h
      exact mem_collect_all_of_ipsec cfg st (by rw [h]; simp [collect_ipsec_metrics, hc])
    · intro h
      exact mem_collect_all_of_ipsec cfg st (by rw [h]; simp [collect_ipsec_metrics, hc])
    · intro rc out h hrc
      exact mem_collect_all_of_ipsec cfg st
        (by rw [h]; simp [collect_ipsec_metrics, hc, hrc])
  · intro h
    exact mem_collect_all_of_net cfg st (by rw [h]; simp [collect_network_interface_metrics])
  · intro h
    simp [collect_latency_metrics, ping_targets, latencySample, h]
  · intro h
    simp [collect_latency_metrics, ping_targets, latencySample, h]
  · intro h
    simp [collect_latency_metrics, ping_targets, latencySample, h]
  · intro rc pout h hrc
    simp [collect_latency_metrics, ping_targets, latencySample, h, hrc]

/-- C1 witness: the scrape in which every probe fails still responds 200,
carries the three diagnostic samples in its body, and emits no latency
sample for the failed ping. -/
theorem c1_amended_witness :
    (do_GET defaultConfig ("/metrics") failState).status = 200 ∧
    wgErrLine ("wg_not_found") ∈ collect_all_lines defaultConfig failState ∧
    ipsecErrLine ("ipsec_not_found") ∈ collect_all_lines defaultConfig failState ∧
    netErrLine ∈ collect_all_lines defaultConfig failState ∧
    collect_latency_metrics failState.ping = [] := by
  obtain ⟨h1, -, -, -, -, -, hwg, -, -, -, hips, hnet, hpf, -, -, -⟩ :=
    c1_amended_metrics_scrape defaultConfig failState
  exact ⟨h1, (hwg rfl).2, ((hips rfl).1 rfl).2, hnet rfl, hpf rfl⟩

/-- C4: `collect_all` renders character-for-character identical text for two
states that agree on the probe outcomes, the kernel counter table, the ping
results of the probed targets, and the sampled clock. -/
theorem c4_collect_all_deterministic (cfg : Config) (s₁ s₂ : SystemState)
    (hw : s₁.wg = s₂.wg) (hi : s₁.ipsec = s₂.ipsec) (hn : s₁.netdev = s₂.netdev)
    (hp : ∀ t ∈ ping_targets, s₁.ping t.1 = s₂.ping t.1) (hc : s₁.clock = s₂.clock) :
    collect_all cfg s₁ = collect_all cfg s₂ := by
  have hl : collect_latency_metrics s₁.ping = collect_latency_metrics s₂.ping := by
    unfold collect_latency_metrics
    apply List.flatMap_congr
    intro t ht
    unfold latencySample
    rw [hp t ht]
  unfold collect_all collect_all_lines
  rw [hw, hi, hn, hc, hl]

/-- A state whose ping function times out everywhere. -/
def pingStateA : SystemState :=
  { wg := .timeout, ipsec := .timeout, netdev := none,
    ping := fun _ => .timeout, clock := 5 }

/-- A state agreeing with `pingStateA` on every input `collect_all` reads,
but differing on the ping outcome of an unprobed target. -/
def pingStateB : SystemState :=
  { wg := .timeout, ipsec := .timeout, netdev := none,
    ping := fun t => if t = ("10.10.10.2") then .timeout else .fileNotFound,
    clock := 5 }

/-- C4 witness: two concretely different states that agree on all read
inputs render identically. -/
theorem c4_witness :
    collect_all defaultConfig pingStateA = collect_all defaultConfig pingStateB :=
  c4_collect_all_deterministic defaultConfig pingStateA pingStateB rfl rfl rfl
    (by
      intro t ht
      simp only [ping_targets, List.mem_singleton] at ht
      subst ht
      decide)
    rfl

/-- A peer record line is well-formed when it has at least 8 tab fields. -/
def wfPeerRecord (l : String) : Bool :=
  8 ≤ (pySplit l ("\t")).length

/-- The truncated public-key label of a peer record. -/
def recKey (l : String) : String :=
  truncKey ((pySplit l ("\t")).getD 0 (""))

/-- The endpoint label of a peer record. -/
def endpointOf (l : String) : String :=
  if (pySplit l ("\t")).getD 2 ("") ≠ ("(none)") then (pySplit l ("\t")).getD 2 ("")
  else ("unknown")

/-- The receive-byte field of a peer record. -/
def rxFieldOf (l : String) : String :=
  (pySplit l ("\t")).getD 5 ("")

/-- The transmit-byte field of a peer record. -/
def txFieldOf (l : String) : String :=
  (pySplit l ("\t")).getD 6 ("")

/-- The handshake field of a peer record. -/
def hsFieldOf (l : String) : String :=
  (pySplit l ("\t")).getD 4 ("")

/-- The peer record lines of a dump: everything after the interface line. -/
def peerRecords (out : String) : List String :=
  (pySplit (pyStrip out) ("\n")).drop 1

/-- The well-formed peer record lines of a dump. -/
def wfRecords (out : String) : List String :=
  (peerRecords out).filter wfPeerRecord

/-- The receive-byte family prefix of a peer sample line. -/
def wgRxFam : String :=
  "wireguard_peer_receive_bytes_total\x7b"

/-- The transmit-byte family prefix of a peer sample line. -/
def wgTxFam : String :=
  "wireguard_peer_transmit_bytes_total\x7b"

theorem strLeads_eq_of_data {p s : String} {k rest : List Char}
    (hs : s.data = k ++ rest) (hk : p.data.length ≤ k.length) :
    strLeads p s = (k.take p.data.length == p.data) := by
  unfold strLeads
  rw [hs, List.take_append_of_le_length hk]

theorem wgStatusLine_data (cfg : Config) (v : String) :
    (wgStatusLine cfg v).data =
      ("vpn_tunnel_status\x7bvpn_type=\"wireguard\",interface=\"").data ++
      (cfg.wireguard_interface.data ++ (("\"\x7d ").data ++ v.data)) := by
  simp [wgStatusLine, strData_append, List.append_assoc]

theorem wgRxLine_data (cfg : Config) (pk ep v : String) :
    (wgRxLine cfg pk ep v).data =
      ("wireguard_peer_receive_bytes_total\x7binterface=\"").data ++
      (cfg.wireguard_interface.data ++ (("\",public_key=\"").data ++
        (pk.data ++ (("\",endpoint=\"").data ++
          (ep.data ++ (("\"\x7d ").data ++ v.data)))))) := by
  simp [wgRxLine, strData_append, List.append_assoc]

theorem wgTxLine_data (cfg : Config) (pk ep v : String) :
    (wgTxLine cfg pk ep v).data =
      ("wireguard_peer_transmit_bytes_total\x7binterface=\"").data ++
      (cfg.wireguard_interface.data ++ (("\",public_key=\"").data ++
        (pk.data ++ (("\",endpoint=\"").data ++
          (ep.data ++ (("\"\x7d ").data ++ v.data)))))) := by
  simp [wgTxLine, strData_append, List.append_assoc]

theorem wgHsLine_data (cfg : Config) (pk v : String) :
    (wgHsLine cfg pk v).data =
      ("wireguard_peer_last_handshake_seconds\x7binterface=\"").data ++
      (cfg.wireguard_interface.data ++ (("\",public_key=\"").data ++
        (pk.data ++ (("\"\x7d ").data ++ v.data)))) := by
  simp [wgHsLine, strData_append, List.append_assoc]

theorem strLeads_rx_status (cfg : Config) (v : String) :
    strLeads wgRxFam (wgStatusLine cfg v) = false := by
  rw [strLeads_eq_of_data (wgStatusLine_data cfg v) (by decide)]
  decide

theorem strLeads_rx_rx (cfg : Config) (pk ep v : String) :
    strLeads wgRxFam (wgRxLine cfg pk ep v) = true := by
  rw [strLeads_eq_of_data (wgRxLine_data cfg pk ep v) (by decide)]
  decide

theorem strLeads_rx_tx (cfg : Config) (pk ep v : String) :
    strLeads wgRxFam (wgTxLine cfg pk ep v) = false := by
  rw [strLeads_eq_of_data (wgTxLine_data cfg pk ep v) (by decide)]
  decide

theorem strLeads_rx_hs (cfg : Config) (pk v : String) :
    strLeads wgRxFam (wgHsLine cfg pk v) = false := by
  rw [strLeads_eq_of_data (wgHsLine_data cfg pk v) (by decide)]
  decide

theorem strLeads_tx_status (cfg : Config) (v : String) :
    strLeads wgTxFam (wgStatusLine cfg v) = false := by
  rw [strLeads_eq_of_data (wgStatusLine_data cfg v) (by decide)]
  decide

theorem strLeads_tx_rx (cfg : Config) (pk ep v : String) :
    strLeads wgTxFam (wgRxLine cfg pk ep v) = false := by
  rw [strLeads_eq_of_data (wgRxLine_data cfg pk ep v) (by decide)]
  decide

theorem strLeads_tx_tx (cfg : Config) (pk ep v : String) :
    strLeads wgTxFam (wgTxLine cfg pk ep v) = true := by
  rw [strLeads_eq_of_data (wgTxLine_data cfg pk ep v) (by decide)]
  decide

theorem strLeads_tx_hs (cfg : Config) (pk v : String) :
    strLeads wgTxFam (wgHsLine cfg pk v) = false := by
  rw [strLeads_eq_of_data (wgHsLine_data cfg pk v) (by decide)]
  decide

theorem rx_inj (cfg : Config) {pk₁ ep₁ v₁ pk₂ ep₂ v₂ : String}
    (h1 : '"' ∉ pk₁.data) (h2 : '"' ∉ pk₂.data)
    (he : wgRxLine cfg pk₁ ep₁ v₁ = wgRxLine cfg pk₂ ep₂ v₂) : pk₁ = pk₂ := by
  have hd := congrArg String.data he
  rw [wgRxLine_data, wgRxLine_data] at hd
  have hd2 := List.append_cancel_left hd
  have hd3 := List.append_cancel_left hd2
  have hd4 := List.append_cancel_left hd3
  have hsplit : ∀ X : List Char,
      ("\",endpoint=\"").data ++ X = '"' :: ((",endpoint=\"").data ++ X) := fun _ => rfl
  rw [hsplit, hsplit] at hd4
  exact strEq_of_data (sentinel_append_inj h1 h2 hd4).1

theorem tx_inj (cfg : Config) {pk₁ ep₁ v₁ pk₂ ep₂ v₂ : String}
    (h1 : '"' ∉ pk₁.data) (h2 : '"' ∉ pk₂.data)
    (he : wgTxLine cfg pk₁ ep₁ v₁ = wgTxLine cfg pk₂ ep₂ v₂) : pk₁ = pk₂ := by
  have hd := congrArg String.data he
  rw [wgTxLine_data, wgTxLine_data] at hd
  have hd2 := List.append_cancel_left hd
  have hd3 := List.append_cancel_left hd2
  have hd4 := List.append_cancel_left hd3
  have hsplit : ∀ X : List Char,
      ("\",endpoint=\"").data ++ X = '"' :: ((",endpoint=\"").data ++ X) := fun _ => rfl
  rw [hsplit, hsplit] at hd4
  exact strEq_of_data (sentinel_append_inj h1 h2 hd4).1

theorem peerSamples_wf (cfg : Config) {l : String} (h : wfPeerRecord l = true) :
    peerSamples cfg l =
      [wgRxLine cfg (recKey l) (endpointOf l) (rxFieldOf l),
       wgTxLine cfg (recKey l) (endpointOf l) (txFieldOf l),
       wgHsLine cfg (recKey l) (hsFieldOf l)] := by
  have hp : 8 ≤ (pySplit l ("\t")).length := by
    simpa [wfPeerRecord] using h
  simp only [peerSamples, recKey, endpointOf, rxFieldOf, txFieldOf, hsFieldOf, if_pos hp]

theorem peerSamples_malformed (cfg : Config) {l : String} (h : wfPeerRecord l = false) :
    peerSamples cfg l = [] := by
  have hp : ¬(8 ≤ (pySplit l ("\t")).length) := by
    simpa [wfPeerRecord] using h
  simp only [peerSamples, if_neg hp]

theorem flatMap_filter_wf {α β : Type} (p : α → Bool) (f : α → List β)
    (h : ∀ x, p x = false → f x = []) :
    ∀ l : List α, l.flatMap f = (l.filter p).flatMap f := by
  intro l
  induction l with
  | nil => rfl
  | cons a as ih =>
    cases hpa : p a with
    | true => simp [List.flatMap_cons, List.filter_cons, hpa, ih]
    | false => simp [List.flatMap_cons, List.filter_cons, hpa, h a hpa, ih]

theorem countP_flatMap {α β : Type} (q : β → Bool) (f : α → List β) :
    ∀ l : List α, (l.flatMap f).countP q = (l.map fun x => (f x).countP q).sum := by
  intro l
  induction l with
  | nil => rfl
  | cons a as ih =>
    simp [List.flatMap_cons, List.countP_append, ih]

theorem flatMap_eq_map_of {α β : Type} (f : α → List β) (g : α → β) :
    ∀ l : List α, (∀ x ∈ l, f x = [g x]) → l.flatMap f = l.map g := by
  intro l
  induction l with
  | nil => intro _; rfl
  | cons a as ih =>
    intro h
    rw [List.flatMap_cons, h a (List.mem_cons_self a as), List.map_cons,
      ih fun x hx => h x (List.mem_cons_of_mem a hx)]
    rfl

/-- C3 amended: for every exit-0 dump, the parser output is the status
sample followed by the peer samples; records with fewer than 8 tab fields
are skipped without affecting the well-formed records' samples; exactly
one receive-byte and one transmit-byte sample is produced per well-formed
record; and the samples are uniquely labeled exactly when the truncated
keys are pairwise distinct (and quote-free, as real base64 keys are) —
records whose keys collide on their first 12 characters yield
identically-labeled samples (see the counterexample). -/
theorem c3_peer_record_parsing (cfg : Config) (out : String) :
    collect_wireguard_metrics cfg (.completed 0 out) =
      wgStatusLine cfg ("1") :: (peerRecords out).flatMap (peerSamples cfg) ∧
    (peerRecords out).flatMap (peerSamples cfg) =
      (wfRecords out).flatMap (peerSamples cfg) ∧
    (collect_wireguard_metrics cfg (.completed 0 out)).countP
      (fun l => strLeads wgRxFam l) = (wfRecords out).length ∧
    (collect_wireguard_metrics cfg (.completed 0 out)).countP
      (fun l => strLeads wgTxFam l) = (wfRecords out).length ∧
    (((wfRecords out).map recKey).Nodup →
      (∀ l ∈ wfRecords out, '"' ∉ (recKey l).data) →
      ((collect_wireguard_metrics cfg (.completed 0 out)).filter
        (fun l => strLeads wgRxFam l)).Nodup ∧
      ((collect_wireguard_metrics cfg (.completed 0 out)).filter
        (fun l => strLeads wgTxFam l)).Nodup) := by
  have hps0 : ∀ x, wfPeerRecord x = false → peerSamples cfg x = [] :=
    fun x hx => peerSamples_malformed cfg hx
  have hcol : collect_wireguard_metrics cfg (.completed 0 out) =
      wgStatusLine cfg ("1") :: (peerRecords out).flatMap (peerSamples cfg) := by
    simp [collect_wireguard_metrics, peerRecords]
  have hskip : (peerRecords out).flatMap (peerSamples cfg) =
      (wfRecords out).flatMap (peerSamples cfg) :=
    flatMap_filter_wf wfPeerRecord (peerSamples cfg) hps0 (peerRecords out)
  have hwfmem : ∀ l ∈ wfRecords out, wfPeerRecord l = true :=
    fun l hl => List.of_mem_filter hl
  refine ⟨hcol, hskip, ?_, ?_, ?_⟩
  · rw [hcol, hskip, List.countP_cons, countP_flatMap]
    have hmap : (wfRecords out).map
          (fun x => (peerSamples cfg x).countP fun l => strLeads wgRxFam l) =
        (wfRecords out).map fun _ => 1 := by
      apply List.map_congr_left
      intro l hl
      rw [peerSamples_wf cfg (hwfmem l hl)]
      simp [List.countP_cons, strLeads_rx_rx, strLeads_rx_tx, strLeads_rx_hs]
    rw [hmap, strLeads_rx_status]
    simp [List.map_const', List.sum_replicate]
  · rw [hcol, hskip, List.countP_cons, countP_flatMap]
    have hmap : (wfRecords out).map
          (fun x => (peerSamples cfg x).countP fun l => strLeads wgTxFam l) =
        (wfRecords out).map fun _ => 1 := by
      apply List.map_congr_left
      intro l hl
      rw [peerSamples_wf cfg (hwfmem l hl)]
      simp [List.countP_cons, strLeads_tx_rx, strLeads_tx_tx, strLeads_tx_hs]
    rw [hmap, strLeads_tx_status]
    simp [List.map_const', List.sum_replicate]
  · intro hnd hq
    have hwfnd : (wfRecords out).Nodup := List.Nodup.of_map recKey hnd
    have hinj := List.inj_on_of_nodup_map hnd
    constructor
    · rw [hcol, hskip, List.filter_cons_of_neg (by simp [strLeads_rx_status]),
        List.filter_flatMap]
      have heach : ∀ l ∈ wfRecords out,
          (peerSamples cfg l).filter (fun s => strLeads wgRxFam s) =
            [wgRxLine cfg (recKey l) (endpointOf l) (rxFieldOf l)] := by
        intro l hl
        rw [peerSamples_wf cfg (hwfmem l hl)]
        simp [List.filter, strLeads_rx_rx, strLeads_rx_tx, strLeads_rx_hs]
      rw [flatMap_eq_map_of _ _ _ heach]
      refine List.Nodup.map_on ?_ hwfnd
      intro x hx y hy hxy
      exact hinj hx hy (rx_inj cfg (hq x hx) (hq y hy) hxy)
    · rw [hcol, hskip, List.filter_cons_of_neg (by simp [strLeads_tx_status]),
        List.filter_flatMap]
      have heach : ∀ l ∈ wfRecords out,
          (peerSamples cfg l).filter (fun s => strLeads wgTxFam s) =
            [wgTxLine cfg (recKey l) (endpointOf l) (txFieldOf l)] := by
        intro l hl
        rw [peerSamples_wf cfg (hwfmem l hl)]
        simp [List.filter, strLeads_tx_rx, strLeads_tx_tx, strLeads_tx_hs]
      rw [flatMap_eq_map_of _ _ _ heach]
      refine List.Nodup.map_on ?_ hwfnd
      intro x hx y hy hxy
      exact hinj hx hy (tx_inj cfg (hq x hx) (hq y hy) hxy)

/-- A dump with a header, two well-formed peer records with distinct keys,
and one malformed record. -/
def wgDumpSample : String :=
  "wg0 priv pub 51820 off\nAAAA00000000XXXX\t(none)\t1.2.3.4:51820\t10.0.0.2/32\t1700\t11\t22\t25\nBBBB11111111YYYY\t(none)\t5.6.7.8:51820\t10.0.0.3/32\t1800\t33\t44\t25\nmalformed\trecord"

set_option maxRecDepth 8000 in
/-- C3 witness: the peer-record properties at a concrete dump with two
well-formed records and one malformed record. -/
theorem c3_witness :
    (collect_wireguard_metrics defaultConfig (.completed 0 wgDumpSample)).countP
      (fun l => strLeads wgRxFam l) = 2 ∧
    (collect_wireguard_metrics defaultConfig (.completed 0 wgDumpSample)).countP
      (fun l => strLeads wgTxFam l) = 2 ∧
    ((collect_wireguard_metrics defaultConfig (.completed 0 wgDumpSample)).filter
      (fun l => strLeads wgRxFam l)).Nodup := by
  obtain ⟨-, -, hrx, htx, huniq⟩ := c3_peer_record_parsing defaultConfig wgDumpSample
  refine ⟨?_, ?_, ?_⟩
  · rw [hrx]
    decide
  · rw [htx]
    decide
  · exact (huniq (by decide) (by decide)).1

/-- A scrape state whose wireguard dump repeats one peer record, so the
peer parser emits the same labelled samples twice. -/
def dupDumpState : SystemState :=
  { wg := .completed 0 ("wg0 priv pub 51820 off\nAAAA00000000XXXX\t(none)\t1.2.3.4:51820\t10.0.0.2/32\t1700\t11\t22\t25\nAAAA00000000XXXX\t(none)\t1.2.3.4:51820\t10.0.0.2/32\t1700\t11\t22\t25"),
    ipsec := .fileNotFound, netdev := none, ping := fun _ => .fileNotFound,
    clock := 7 }

/-- The series identifiers (name plus label block) of the sample lines of
one snapshot. -/
def snapshotKeys (cfg : Config) (st : SystemState) : List (List Char) :=
  ((collect_all_lines cfg st).filter isSampleLine).map lineKey

set_option maxRecDepth 16000 in
/-- C5 counterexample: a dump with two identical peer records makes
`collect_all` emit duplicate (name, label-set) pairs silently — no
deduplication happens, contradicting the claimed uniqueness invariant. -/
theorem c5_counterexample :
    ¬ (snapshotKeys defaultConfig dupDumpState).Nodup := by
  decide

/-- The series identifier of the wireguard status sample. -/
def wgStatusKey (cfg : Config) : List Char :=
  ("vpn_tunnel_status\x7bvpn_type=\"wireguard\",interface=\"").data ++
    (cfg.wireguard_interface.data ++ ['"', '\x7d'])

/-- The series identifier of a peer receive-byte sample. -/
def wgRxKey (cfg : Config) (pk ep : String) : List Char :=
  ("wireguard_peer_receive_bytes_total\x7binterface=\"").data ++
    (cfg.wireguard_interface.data ++ (("\",public_key=\"").data ++
      (pk.data ++ (("\",endpoint=\"").data ++ (ep.data ++ ['"', '\x7d'])))))

/-- The series identifier of a peer transmit-byte sample. -/
def wgTxKey (cfg : Config) (pk ep : String) : List Char :=
  ("wireguard_peer_transmit_bytes_total\x7binterface=\"").data ++
    (cfg.wireguard_interface.data ++ (("\",public_key=\"").data ++
      (pk.data ++ (("\",endpoint=\"").data ++ (ep.data ++ ['"', '\x7d'])))))

/-- The series identifier of a peer handshake sample. -/
def wgHsKey (cfg : Config) (pk : String) : List Char :=
  ("wireguard_peer_last_handshake_seconds\x7binterface=\"").data ++
    (cfg.wireguard_interface.data ++ (("\",public_key=\"").data ++
      (pk.data ++ ['"', '\x7d'])))

/-- The series identifier of a kernel interface counter sample. -/
def netKey (kind iface : String) : List Char :=
  ("vpn_interface_").data ++ (kind.data ++ (("\x7binterface=\"").data ++
    (iface.data ++ ['"', '\x7d'])))

theorem wgStatusLine_shape (cfg : Config) (v : String) :
    (wgStatusLine cfg v).data = wgStatusKey cfg ++ ' ' :: v.data := by
  rw [wgStatusLine_data]
  have h3 : ∀ X : List Char, ("\"\x7d ").data ++ X = '"' :: '\x7d' :: ' ' :: X :=
    fun _ => rfl
  rw [h3]
  simp [wgStatusKey, List.append_assoc]

theorem wgRxLine_shape (cfg : Config) (pk ep v : String) :
    (wgRxLine cfg pk ep v).data = wgRxKey cfg pk ep ++ ' ' :: v.data := by
  rw [wgRxLine_data]
  have h3 : ∀ X : List Char, ("\"\x7d ").data ++ X = '"' :: '\x7d' :: ' ' :: X :=
    fun _ => rfl
  rw [h3]
  simp [wgRxKey, List.append_assoc]

theorem wgTxLine_shape (cfg : Config) (pk ep v : String) :
    (wgTxLine cfg pk ep v).data = wgTxKey cfg pk ep ++ ' ' :: v.data := by
  rw [wgTxLine_data]
  have h3 : ∀ X : List Char, ("\"\x7d ").data ++ X = '"' :: '\x7d' :: ' ' :: X :=
    fun _ => rfl
  rw [h3]
  simp [wgTxKey, List.append_assoc]

theorem wgHsLine_shape (cfg : Config) (pk v : String) :
    (wgHsLine cfg pk v).data = wgHsKey cfg pk ++ ' ' :: v.data := by
  rw [wgHsLine_data]
  have h3 : ∀ X : List Char, ("\"\x7d ").data ++ X = '"' :: '\x7d' :: ' ' :: X :=
    fun _ => rfl
  rw [h3]
  simp [wgHsKey, List.append_assoc]

theorem netSampleLine_data (kind iface v : String) :
    (netSampleLine kind iface v).data =
      ("vpn_interface_").data ++ (kind.data ++ (("\x7binterface=\"").data ++
        (iface.data ++ (("\"\x7d ").data ++ v.data)))) := by
  simp [netSampleLine, strData_append, List.append_assoc]

theorem netSampleLine_shape (kind iface v : String) :
    (netSampleLine kind iface v).data = netKey kind iface ++ ' ' :: v.data := by
  rw [netSampleLine_data]
  have h3 : ∀ X : List Char, ("\"\x7d ").data ++ X = '"' :: '\x7d' :: ' ' :: X :=
    fun _ => rfl
  rw [h3]
  simp [netKey, List.append_assoc]

theorem latencyLine_shape (v : String) :
    (latencyLine ("wireguard") ("10.10.10.2") v).data =
      ("vpn_latency_ms\x7bvpn_type=\"wireguard\",target=\"10.10.10.2\"\x7d").data ++
        ' ' :: v.data := by
  rfl

theorem lineKey_prefix_line {a v : String} {k : List Char}
    (ha : a.data = k ++ [' ']) (hv : ' ' ∉ v.data) : lineKey (a ++ v) = k := by
  apply lineKey_exact ?_ hv
  rw [strData_append, ha, List.append_assoc]
  rfl

theorem lineKey_wgStatus (cfg : Config) (v : String) (hv : ' ' ∉ v.data) :
    lineKey (wgStatusLine cfg v) = wgStatusKey cfg :=
  lineKey_exact (wgStatusLine_shape cfg v) hv

theorem lineKey_wgRx (cfg : Config) (pk ep v : String) (hv : ' ' ∉ v.data) :
    lineKey (wgRxLine cfg pk ep v) = wgRxKey cfg pk ep :=
  lineKey_exact (wgRxLine_shape cfg pk ep v) hv

theorem lineKey_wgTx (cfg : Config) (pk ep v : String) (hv : ' ' ∉ v.data) :
    lineKey (wgTxLine cfg pk ep v) = wgTxKey cfg pk ep :=
  lineKey_exact (wgTxLine_shape cfg pk ep v) hv

theorem lineKey_wgHs (cfg : Config) (pk v : String) (hv : ' ' ∉ v.data) :
    lineKey (wgHsLine cfg pk v) = wgHsKey cfg pk :=
  lineKey_exact (wgHsLine_shape cfg pk v) hv

theorem lineKey_net (kind iface v : String) (hv : ' ' ∉ v.data) :
    lineKey (netSampleLine kind iface v) = netKey kind iface :=
  lineKey_exact (netSampleLine_shape kind iface v) hv

theorem lineKey_latency (v : String) (hv : ' ' ∉ v.data) :
    lineKey (latencyLine ("wireguard") ("10.10.10.2") v) =
      ("vpn_latency_ms\x7bvpn_type=\"wireguard\",target=\"10.10.10.2\"\x7d").data :=
  lineKey_exact (latencyLine_shape v) hv

theorem getD_prop {α : Type} (p : α → Prop) (l : List α) (n : Nat) (d : α)
    (hd : p d) (hl : ∀ x ∈ l, p x) : p (l.getD n d) := by
  rcases h : l.get? n with - | x
  · rw [List.getD_eq_getElem?_getD, ← List.get?_eq_getElem?, h]
    exact hd
  · rw [List.getD_eq_getElem?_getD, ← List.get?_eq_getElem?, h]
    exact hl x (List.get?_mem h)

theorem mem_of_takeWhile {p : Char → Bool} :
    ∀ {l : List Char} {c : Char}, c ∈ l.takeWhile p → p c = true ∧ c ∈ l := by
  intro l
  induction l with
  | nil => intro c h; simp [List.takeWhile] at h
  | cons a as ih =>
    intro c h
    cases hpa : p a with
    | false =>
      rw [List.takeWhile_cons, hpa] at h
      simp at h
    | true =>
      rw [List.takeWhile_cons, hpa] at h
      rcases List.mem_cons.mp h with h1 | h2
      · exact ⟨h1 ▸ hpa, h1 ▸ List.mem_cons_self a as⟩
      · exact ⟨(ih h2).1, List.mem_cons_of_mem a (ih h2).2⟩

theorem mem_of_dropWhile {p : Char → Bool} :
    ∀ {l : List Char} {c : Char}, c ∈ l.dropWhile p → c ∈ l := by
  intro l
  induction l with
  | nil => intro c h; simp [List.dropWhile] at h
  | cons a as ih =>
    intro c h
    cases hpa : p a with
    | false =>
      rw [List.dropWhile_cons, hpa] at h
      simpa using h
    | true =>
      rw [List.dropWhile_cons, hpa] at h
      exact List.mem_cons_of_mem a (ih h)

theorem charOfNat_digit_ne_space (n : Nat) : ¬ Char.ofNat (48 + n % 10) = ' ' := by
  have h : n % 10 < 10 := Nat.mod_lt _ (by norm_num)
  generalize hk : n % 10 = k
  rw [hk] at h
  interval_cases k <;> decide

theorem natReprCore_no_space :
    ∀ (fuel n : Nat) (acc : List Char), ' ' ∉ acc → ' ' ∉ natReprCore fuel n acc := by
  intro fuel
  induction fuel with
  | zero =>
    intro n acc ha
    simpa [natReprCore] using ha
  | succ f ih =>
    intro n acc ha
    have hd : ¬ Char.ofNat (48 + n % 10) = ' ' := charOfNat_digit_ne_space n
    simp only [natReprCore]
    split
    · intro hm
      rcases List.mem_cons.mp hm with h1 | h2
      · exact hd h1.symm
      · exact ha h2
    · refine ih (n / 10) _ ?_
      intro hm
      rcases List.mem_cons.mp hm with h1 | h2
      · exact hd h1.symm
      · exact ha h2

theorem natRepr_no_space (n : Nat) : ' ' ∉ (natRepr n).data :=
  natReprCore_no_space (n + 1) n [] (by simp)

theorem reNumThen_digits {suffix cs g : List Char}
    (h : reNumThen suffix cs = some g) : ∀ c ∈ g, isPyDigit c = true := by
  unfold reNumThen at h
  dsimp only at h
  split_ifs at h
  all_goals first | exact Option.noConfusion h | skip
  rcases Option.some.inj h with rfl
  intro c hc
  exact (mem_of_takeWhile hc).1

theorem reSearchNum_digits {suffix : List Char} :
    ∀ {cs g : List Char}, reSearchNum suffix cs = some g →
      ∀ c ∈ g, isPyDigit c = true := by
  intro cs
  induction cs with
  | nil => intro g h; simp [reSearchNum] at h
  | cons a as ih =>
    intro g h
    rcases hm : reNumThen suffix (a :: as) with - | g'
    · rw [reSearchNum, hm] at h
      exact ih h
    · rw [reSearchNum, hm] at h
      rcases Option.some.inj h with rfl
      exact reNumThen_digits hm

theorem isPyDigit_ne_space {c : Char} (h : isPyDigit c = true) : ¬ c = ' ' := by
  intro hc
  subst hc
  exact absurd h (by decide)

theorem isDigitDot_ne_space {c : Char} (h : isDigitDot c = true) : ¬ c = ' ' := by
  intro hc
  subst hc
  exact absurd h (by decide)

theorem pingMatchAt_digitDot :
    ∀ {cs g : List Char}, pingMatchAt cs = some g → ∀ c ∈ g, isDigitDot c = true := by
  intro cs g h
  unfold pingMatchAt at h
  dsimp only at h
  split at h
  · split at h
    · exact absurd h (by simp)
    · split at h
      · split at h
        · exact absurd h (by simp)
        · split at h
          · split at h
            · exact absurd h (by simp)
            · split at h
              · rcases Option.some.inj h with rfl
                intro c hc
                exact (mem_of_takeWhile hc).1
              · exact absurd h (by simp)
          · exact absurd h (by simp)
      · exact absurd h (by simp)
  · exact absurd h (by simp)

theorem pingSearch_digitDot :
    ∀ {cs g : List Char}, pingSearch cs = some g → ∀ c ∈ g, isDigitDot c = true := by
  intro cs
  induction cs with
  | nil => intro g h; simp [pingSearch] at h
  | cons a as ih =>
    intro g h
    rcases hm : pingMatchAt (a :: as) with - | g'
    · rw [pingSearch, hm] at h
      exact ih h
    · rw [pingSearch, hm] at h
      rcases Option.some.inj h with rfl
      exact pingMatchAt_digitDot hm

theorem pyFloatCanon_chars {g : List Char} {v : String}
    (h : pyFloatCanon g = some v) : ∀ c ∈ v.data, isDigitDot c = true := by
  unfold pyFloatCanon at h
  dsimp only at h
  split_ifs at h with hg h1 h2
  all_goals first | exact Option.noConfusion h | skip
  all_goals
    rcases Option.some.inj h with rfl
    have hall : ∀ c ∈ g, isDigitDot c = true := by
      simp only [Bool.and_eq_true, List.all_eq_true] at hg
      exact hg.1.1
    intro c hc
    rcases List.mem_append.mp hc with hA | hB
    · first
      | exact (by rcases List.mem_singleton.mp hA with rfl; decide)
      | exact hall c (mem_of_takeWhile (mem_of_dropWhile hA)).2
    · rcases List.mem_cons.mp hB with rfl | hB2
      · decide
      · first
        | exact (by rcases List.mem_singleton.mp hB2 with rfl; decide)
        | exact hall c
            (mem_of_dropWhile (List.drop_subset 1 _
              (List.mem_reverse.mp (mem_of_dropWhile (List.mem_reverse.mp hB2)))))
        | exact hall c
            (mem_of_dropWhile (List.tail_subset _
              (List.mem_reverse.mp (mem_of_dropWhile (List.mem_reverse.mp hB2)))))

theorem pyFloatCanon_no_space {g : List Char} {v : String}
    (h : pyFloatCanon g = some v) : ' ' ∉ v.data := fun hm =>
  isDigitDot_ne_space (pyFloatCanon_chars h ' ' hm) rfl

theorem pyFieldsAux_no_space :
    ∀ (cs acc : List Char), (∀ c ∈ acc, isPySpace c = false) →
      ∀ w ∈ pyFieldsAux cs acc, ∀ c ∈ w, isPySpace c = false := by
  intro cs
  induction cs with
  | nil =>
    intro acc ha w hw c hc
    unfold pyFieldsAux at hw
    split at hw
    · simp at hw
    · rcases List.mem_singleton.mp hw with rfl
      exact ha c (List.mem_reverse.mp hc)
  | cons a as ih =>
    intro acc ha w hw c hc
    unfold pyFieldsAux at hw
    split at hw
    · split at hw
      · exact ih [] (by simp) w hw c hc
      · rcases List.mem_cons.mp hw with h1 | h2
        · subst h1
          exact ha c (List.mem_reverse.mp hc)
        · exact ih [] (by simp) w h2 c hc
    · rename_i hsp
      refine ih (a :: acc) ?_ w hw c hc
      intro c' hc'
      rcases List.mem_cons.mp hc' with h1 | h2
      · subst h1
        simpa using hsp
      · exact ha c' h2

theorem pyFields_no_space (s : String) : ∀ w ∈ pyFields s, ' ' ∉ w.data := by
  intro w hw
  unfold pyFields at hw
  obtain ⟨wl, hwl, rfl⟩ := List.mem_map.mp hw
  intro hc
  have h2 := pyFieldsAux_no_space s.data [] (by simp) wl hwl ' ' hc
  exact absurd h2 (by decide)

theorem wgRxKey_inj (cfg : Config) {pk₁ ep₁ pk₂ ep₂ : String}
    (h1 : '"' ∉ pk₁.data) (h2 : '"' ∉ pk₂.data)
    (he : wgRxKey cfg pk₁ ep₁ = wgRxKey cfg pk₂ ep₂) : pk₁ = pk₂ := by
  unfold wgRxKey at he
  have hd2 := List.append_cancel_left he
  have hd3 := List.append_cancel_left hd2
  have hd4 := List.append_cancel_left hd3
  have hsplit : ∀ X : List Char,
      ("\",endpoint=\"").data ++ X = '"' :: ((",endpoint=\"").data ++ X) := fun _ => rfl
  rw [hsplit, hsplit] at hd4
  exact strEq_of_data (sentinel_append_inj h1 h2 hd4).1

theorem wgTxKey_inj (cfg : Config) {pk₁ ep₁ pk₂ ep₂ : String}
    (h1 : '"' ∉ pk₁.data) (h2 : '"' ∉ pk₂.data)
    (he : wgTxKey cfg pk₁ ep₁ = wgTxKey cfg pk₂ ep₂) : pk₁ = pk₂ := by
  unfold wgTxKey at he
  have hd2 := List.append_cancel_left he
  have hd3 := List.append_cancel_left hd2
  have hd4 := List.append_cancel_left hd3
  have hsplit : ∀ X : List Char,
      ("\",endpoint=\"").data ++ X = '"' :: ((",endpoint=\"").data ++ X) := fun _ => rfl
  rw [hsplit, hsplit] at hd4
  exact strEq_of_data (sentinel_append_inj h1 h2 hd4).1

theorem wgHsKey_inj (cfg : Config) {pk₁ pk₂ : String}
    (h1 : '"' ∉ pk₁.data) (h2 : '"' ∉ pk₂.data)
    (he : wgHsKey cfg pk₁ = wgHsKey cfg pk₂) : pk₁ = pk₂ := by
  unfold wgHsKey at he
  have hd2 := List.append_cancel_left he
  have hd3 := List.append_cancel_left hd2
  have hd4 := List.append_cancel_left hd3
  exact strEq_of_data (sentinel_append_inj h1 h2 hd4).1

theorem netKey_inj (kind : String) {i₁ i₂ : String}
    (h1 : '"' ∉ i₁.data) (h2 : '"' ∉ i₂.data)
    (he : netKey kind i₁ = netKey kind i₂) : i₁ = i₂ := by
  unfold netKey at he
  have hd2 := List.append_cancel_left he
  have hd3 := List.append_cancel_left hd2
  have hd4 := List.append_cancel_left hd3
  exact strEq_of_data (sentinel_append_inj h1 h2 hd4).1

/-- The per-line decision of the kernel interface loop: the interface name,
when the line will emit samples. -/
def netIfaceOf (line : String) : Option String :=
  let parts := pySplit line (":")
  if parts.length ≠ 2 then none
  else
    let iface := pyStrip (parts.getD 0 (""))
    if !(interfaces_of_interest.any fun p => strLeads p iface) then none
    else if 16 ≤ (pyFields (parts.getD 1 (""))).length then some iface else none

/-- The interfaces for which samples are emitted, in emission order. -/
def matchingIfaces (content : String) : List String :=
  ((pyReadLines content).drop 2).filterMap netIfaceOf

/-- The n-th whitespace field of the counter part of a kernel table line. -/
def statOf (l : String) (n : Nat) : String :=
  (pyFields ((pySplit l (":")).getD 1 (""))).getD n ("")

theorem statOf_no_space (l : String) (n : Nat) : ' ' ∉ (statOf l n).data := by
  unfold statOf
  refine getD_prop (fun w => ' ' ∉ w.data) _ n ("") (by decide) ?_
  exact pyFields_no_space _

theorem netLine_none {l : String} (h : netIfaceOf l = none) : netLine l = [] := by
  unfold netIfaceOf at h
  unfold netLine
  dsimp only at h ⊢
  split_ifs at h ⊢ with hp hm hs
  all_goals first | rfl | exact Option.noConfusion h

theorem netLine_some {l : String} {i : String} (h : netIfaceOf l = some i) :
    netLine l =
      [netSampleLine ("rx_bytes") i (statOf l 0),
       netSampleLine ("tx_bytes") i (statOf l 8),
       netSampleLine ("rx_packets") i (statOf l 1),
       netSampleLine ("tx_packets") i (statOf l 9),
       netSampleLine ("rx_errors") i (statOf l 2),
       netSampleLine ("tx_errors") i (statOf l 10)] := by
  unfold netIfaceOf at h
  unfold netLine statOf
  dsimp only at h ⊢
  split_ifs at h ⊢ with hp hm hs
  all_goals first | exact Option.noConfusion h | skip
  rcases Option.some.inj h with rfl
  rfl

/-- The assumptions under which a successful dump yields unique labels:
distinct truncated keys, no quote character inside them (true of base64
key material), and space-free counter fields (true of `wg show dump`
numeric output). -/
def wgDumpOk (out : String) : Prop :=
  ((wfRecords out).map recKey).Nodup ∧
  ∀ l ∈ wfRecords out, '"' ∉ (recKey l).data ∧ ' ' ∉ (rxFieldOf l).data ∧
    ' ' ∉ (txFieldOf l).data ∧ ' ' ∉ (hsFieldOf l).data

/-- The assumptions under which the kernel table yields unique labels:
distinct matching interface names without quote characters. -/
def netTableOk (content : String) : Prop :=
  (matchingIfaces content).Nodup ∧ ∀ i ∈ matchingIfaces content, '"' ∉ i.data

/-- The three series identifiers of one well-formed peer record. -/
def peerKeys (cfg : Config) (l : String) : List (List Char) :=
  [wgRxKey cfg (recKey l) (endpointOf l), wgTxKey cfg (recKey l) (endpointOf l),
   wgHsKey cfg (recKey l)]

/-- The six series identifiers of one matching kernel table line. -/
def netKeys6 (i : String) : List (List Char) :=
  [netKey ("rx_bytes") i, netKey ("tx_bytes") i, netKey ("rx_packets") i,
   netKey ("tx_packets") i, netKey ("rx_errors") i, netKey ("tx_errors") i]

/-- The 30-character tags of the wireguard collector's series. -/
def wgTagList : List (List Char) :=
  [("vpn_tunnel_status\x7bvpn_type=\"wireguard\",interface=\"").data.take 30,
   ("vpn_exporter_error\x7bvpn_type=\"wireguard\",error=\"").data.take 30,
   ("wireguard_peer_receive_bytes_total\x7binterface=\"").data.take 30,
   ("wireguard_peer_transmit_bytes_total\x7binterface=\"").data.take 30,
   ("wireguard_peer_last_handshake_seconds\x7binterface=\"").data.take 30]

/-- The 30-character tags of the ipsec collector's series. -/
def ipsTagList : List (List Char) :=
  [("vpn_tunnel_status\x7bvpn_type=\"ipsec\"\x7d").data.take 30,
   ("ipsec_connections_established").data.take 30,
   ("ipsec_sas_installed").data.take 30,
   ("ipsec_receive_bytes_total").data.take 30,
   ("ipsec_transmit_bytes_total").data.take 30,
   ("vpn_exporter_error\x7bvpn_type=\"ipsec\",error=\"").data.take 30]

/-- The 30-character tags of the kernel interface collector's series. -/
def netTagList : List (List Char) :=
  [("vpn_interface_rx_bytes\x7binterface=\"").data.take 30,
   ("vpn_interface_tx_bytes\x7binterface=\"").data.take 30,
   ("vpn_interface_rx_packets\x7binterface=\"").data.take 30,
   ("vpn_interface_tx_packets\x7binterface=\"").data.take 30,
   ("vpn_interface_rx_errors\x7binterface=\"").data.take 30,
   ("vpn_interface_tx_errors\x7binterface=\"").data.take 30,
   ("vpn_exporter_error\x7bcomponent=\"").data.take 30]

/-- The 30-character tag of the latency series. -/
def latTagList : List (List Char) :=
  [("vpn_latency_ms\x7bvpn_type=\"wireguard\",target=\"10.10.10.2\"\x7d").data.take 30]

/-- The 30-character tags of the exporter-info block series. -/
def tailTagList : List (List Char) :=
  [("vpn_exporter_info\x7bversion=\"1.0.0\"\x7d").data.take 30,
   ("vpn_exporter_scrape_timestamp").data.take 30]

theorem key_ne_of_tag {a b : List Char} (ta tb : List Char)
    (ha : a.take 30 = ta) (hb : b.take 30 = tb) (hne : ta ≠ tb) : a ≠ b :=
  ne_of_take_ne 30 (by rw [ha, hb]; exact hne)

theorem disjoint_of_tags {A B TA TB : List (List Char)}
    (ha : ∀ a ∈ A, a.take 30 ∈ TA) (hb : ∀ b ∈ B, b.take 30 ∈ TB)
    (hd : ∀ x ∈ TA, x ∉ TB) : A.Disjoint B :=
  fun a haA haB => hd _ (ha a haA) (hb a haB)

theorem isSample_wgStatus (cfg : Config) (v : String) :
    isSampleLine (wgStatusLine cfg v) = true := by
  unfold isSampleLine
  rw [strLeads_eq_of_data (wgStatusLine_data cfg v) (by decide)]
  decide

theorem isSample_wgRx (cfg : Config) (pk ep v : String) :
    isSampleLine (wgRxLine cfg pk ep v) = true := by
  unfold isSampleLine
  rw [strLeads_eq_of_data (wgRxLine_data cfg pk ep v) (by decide)]
  decide

theorem isSample_wgTx (cfg : Config) (pk ep v : String) :
    isSampleLine (wgTxLine cfg pk ep v) = true := by
  unfold isSampleLine
  rw [strLeads_eq_of_data (wgTxLine_data cfg pk ep v) (by decide)]
  decide

theorem isSample_wgHs (cfg : Config) (pk v : String) :
    isSampleLine (wgHsLine cfg pk v) = true := by
  unfold isSampleLine
  rw [strLeads_eq_of_data (wgHsLine_data cfg pk v) (by decide)]
  decide

theorem isSample_net (kind iface v : String) :
    isSampleLine (netSampleLine kind iface v) = true := by
  unfold isSampleLine
  rw [strLeads_eq_of_data (netSampleLine_data kind iface v) (by decide)]
  decide

theorem isSample_latency (v : String) :
    isSampleLine (latencyLine ("wireguard") ("10.10.10.2") v) = true := by
  unfold isSampleLine
  rw [strLeads_eq_of_data (latencyLine_shape v) (by decide)]
  decide

theorem isSample_lit_append (a v : String)
    (h1 : ("#").data.length ≤ a.data.length) (h2 : a.data.take 1 ≠ ("#").data) :
    isSampleLine (a ++ v) = true := by
  unfold isSampleLine
  rw [strLeads_eq_of_data (strData_append a v) h1]
  have h3 : (a.data.take (("#").data.length) == ("#").data) = false :=
    beq_eq_false_iff_ne.mpr h2
  rw [h3]
  rfl

theorem wgStRx_ne (cfg : Config) (pk ep : String) : wgStatusKey cfg ≠ wgRxKey cfg pk ep :=
  key_ne_of_tag (("vpn_tunnel_status\x7bvpn_type=\"wireguard\",interface=\"").data.take 30)
    (("wireguard_peer_receive_bytes_total\x7binterface=\"").data.take 30) rfl rfl (by decide)

theorem wgStTx_ne (cfg : Config) (pk ep : String) : wgStatusKey cfg ≠ wgTxKey cfg pk ep :=
  key_ne_of_tag (("vpn_tunnel_status\x7bvpn_type=\"wireguard\",interface=\"").data.take 30)
    (("wireguard_peer_transmit_bytes_total\x7binterface=\"").data.take 30) rfl rfl (by decide)

theorem wgStHs_ne (cfg : Config) (pk : String) : wgStatusKey cfg ≠ wgHsKey cfg pk :=
  key_ne_of_tag (("vpn_tunnel_status\x7bvpn_type=\"wireguard\",interface=\"").data.take 30)
    (("wireguard_peer_last_handshake_seconds\x7binterface=\"").data.take 30) rfl rfl (by decide)

theorem wgRxTx_ne (cfg : Config) (pk₁ ep₁ pk₂ ep₂ : String) :
    wgRxKey cfg pk₁ ep₁ ≠ wgTxKey cfg pk₂ ep₂ :=
  key_ne_of_tag (("wireguard_peer_receive_bytes_total\x7binterface=\"").data.take 30)
    (("wireguard_peer_transmit_bytes_total\x7binterface=\"").data.take 30) rfl rfl (by decide)

theorem wgRxHs_ne (cfg : Config) (pk₁ ep₁ pk₂ : String) :
    wgRxKey cfg pk₁ ep₁ ≠ wgHsKey cfg pk₂ :=
  key_ne_of_tag (("wireguard_peer_receive_bytes_total\x7binterface=\"").data.take 30)
    (("wireguard_peer_last_handshake_seconds\x7binterface=\"").data.take 30) rfl rfl (by decide)

theorem wgTxHs_ne (cfg : Config) (pk₁ ep₁ pk₂ : String) :
    wgTxKey cfg pk₁ ep₁ ≠ wgHsKey cfg pk₂ :=
  key_ne_of_tag (("wireguard_peer_transmit_bytes_total\x7binterface=\"").data.take 30)
    (("wireguard_peer_last_handshake_seconds\x7binterface=\"").data.take 30) rfl rfl (by decide)

theorem netKey_kind_inj {kA kB i₁ i₂ : String}
    (h1 : '\x7b' ∉ kA.data) (h2 : '\x7b' ∉ kB.data)
    (he : netKey kA i₁ = netKey kB i₂) : kA = kB := by
  unfold netKey at he
  have hd2 := List.append_cancel_left he
  have hsplit : ∀ X : List Char,
      ("\x7binterface=\"").data ++ X = '\x7b' :: (("interface=\"").data ++ X) := fun _ => rfl
  rw [hsplit, hsplit] at hd2
  exact strEq_of_data (sentinel_append_inj h1 h2 hd2).1

theorem peerKeys_nodup (cfg : Config) (l : String) : (peerKeys cfg l).Nodup := by
  simp only [peerKeys, List.nodup_cons, List.mem_cons, List.mem_singleton,
    List.not_mem_nil, List.nodup_nil, and_true, not_or, not_false_eq_true]
  exact ⟨⟨wgRxTx_ne cfg _ _ _ _, wgRxHs_ne cfg _ _ _⟩, wgTxHs_ne cfg _ _ _⟩

theorem netKeys6_nodup (i : String) : (netKeys6 i).Nodup := by
  simp only [netKeys6, List.nodup_cons, List.mem_cons, List.mem_singleton,
    List.not_mem_nil, List.nodup_nil, and_true, not_or, not_false_eq_true]
  refine ⟨⟨?_, ?_, ?_, ?_, ?_⟩, ⟨?_, ?_, ?_, ?_⟩, ⟨?_, ?_, ?_⟩, ⟨?_, ?_⟩, ?_⟩
  all_goals
    intro heq
    exact absurd (netKey_kind_inj (by decide) (by decide) heq) (by decide)

theorem wg_keys_eq (cfg : Config) {out : String} (hok : wgDumpOk out) :
    (collect_wireguard_metrics cfg (.completed 0 out)).map lineKey =
      wgStatusKey cfg :: (wfRecords out).flatMap (peerKeys cfg) := by
  obtain ⟨-, hprops⟩ := hok
  have hcol : collect_wireguard_metrics cfg (.completed 0 out) =
      wgStatusLine cfg ("1") :: (wfRecords out).flatMap (peerSamples cfg) := by
    have h1 : collect_wireguard_metrics cfg (.completed 0 out) =
        wgStatusLine cfg ("1") :: (peerRecords out).flatMap (peerSamples cfg) := by
      simp [collect_wireguard_metrics, peerRecords]
    rw [h1, flatMap_filter_wf wfPeerRecord (peerSamples cfg)
      (fun x hx => peerSamples_malformed cfg hx) (peerRecords out)]
    rfl
  rw [hcol, List.map_cons, lineKey_wgStatus cfg ("1") (by decide), List.map_flatMap]
  congr 1
  apply List.flatMap_congr
  intro l hl
  obtain ⟨-, hrx, htx, hhs⟩ := hprops l hl
  rw [peerSamples_wf cfg (List.of_mem_filter hl), List.map_cons, List.map_cons,
    List.map_cons, List.map_nil, lineKey_wgRx cfg _ _ _ hrx,
    lineKey_wgTx cfg _ _ _ htx, lineKey_wgHs cfg _ _ hhs]
  rfl

theorem wg_block (cfg : Config) (r : ProbeResult)
    (hok : ∀ rc out, r = .completed rc out → rc = 0 → wgDumpOk out) :
    (collect_wireguard_metrics cfg r).filter isSampleLine =
      collect_wireguard_metrics cfg r ∧
    ((collect_wireguard_metrics cfg r).map lineKey).Nodup ∧
    (∀ k ∈ (collect_wireguard_metrics cfg r).map lineKey, k.take 30 ∈ wgTagList) := by
  match r with
  | .timeout =>
    have hcol : collect_wireguard_metrics cfg .timeout = [wgErrLine ("timeout")] := rfl
    rw [hcol]
    refine ⟨by decide, by decide, by decide⟩
  | .exception =>
    have hcol : collect_wireguard_metrics cfg .exception = [wgErrLine ("exception")] := rfl
    rw [hcol]
    refine ⟨by decide, by decide, by decide⟩
  | .fileNotFound =>
    have herr : isSampleLine (wgErrLine ("wg_not_found")) = true := by decide
    refine ⟨?_, ?_, ?_⟩
    · simp [collect_wireguard_metrics, List.filter_cons, isSample_wgStatus cfg ("0"), herr]
    · have hks : (collect_wireguard_metrics cfg .fileNotFound).map lineKey =
          [wgStatusKey cfg, lineKey (wgErrLine ("wg_not_found"))] := by
        simp [collect_wireguard_metrics, lineKey_wgStatus cfg ("0") (by decide)]
      rw [hks]
      refine List.nodup_cons.mpr ⟨?_, List.nodup_singleton _⟩
      intro hmem
      have heq := List.mem_singleton.mp hmem
      exact absurd heq (key_ne_of_tag
        (("vpn_tunnel_status\x7bvpn_type=\"wireguard\",interface=\"").data.take 30)
        (("vpn_exporter_error\x7bvpn_type=\"wireguard\",error=\"").data.take 30)
        rfl (by decide) (by decide))
    · have hks : (collect_wireguard_metrics cfg .fileNotFound).map lineKey =
          [wgStatusKey cfg, lineKey (wgErrLine ("wg_not_found"))] := by
        simp [collect_wireguard_metrics, lineKey_wgStatus cfg ("0") (by decide)]
      rw [hks]
      intro k hk
      rcases List.mem_cons.mp hk with rfl | hk2
      · rw [show (wgStatusKey cfg).take 30 =
          ("vpn_tunnel_status\x7bvpn_type=\"wireguard\",interface=\"").data.take 30 from rfl]
        decide
      · rcases List.mem_singleton.mp hk2 with rfl
        decide
  | .completed rc out =>
    by_cases hrc : rc = 0
    · subst hrc
      have hok' := hok 0 out rfl rfl
      have hkeys := wg_keys_eq cfg hok'
      obtain ⟨hnd, hprops⟩ := hok'
      refine ⟨?_, ?_, ?_⟩
      · refine List.filter_eq_self.mpr ?_
        intro x hx
        have hcol : collect_wireguard_metrics cfg (.completed 0 out) =
            wgStatusLine cfg ("1") :: (wfRecords out).flatMap (peerSamples cfg) := by
          have h1 : collect_wireguard_metrics cfg (.completed 0 out) =
              wgStatusLine cfg ("1") :: (peerRecords out).flatMap (peerSamples cfg) := by
            simp [collect_wireguard_metrics, peerRecords]
          rw [h1, flatMap_filter_wf wfPeerRecord (peerSamples cfg)
            (fun y hy => peerSamples_malformed cfg hy) (peerRecords out)]
          rfl
        rw [hcol] at hx
        rcases List.mem_cons.mp hx with rfl | hx2
        · exact isSample_wgStatus cfg ("1")
        · obtain ⟨l, hl, hxl⟩ := List.mem_flatMap.mp hx2
          rw [peerSamples_wf cfg (List.of_mem_filter hl)] at hxl
          rcases List.mem_cons.mp hxl with rfl | hxl2
          · exact isSample_wgRx cfg _ _ _
          rcases List.mem_cons.mp hxl2 with rfl | hxl3
          · exact isSample_wgTx cfg _ _ _
          rcases List.mem_singleton.mp hxl3 with rfl
          exact isSample_wgHs cfg _ _
      · rw [hkeys]
        refine List.nodup_cons.mpr ⟨?_, ?_⟩
        · intro hmem
          obtain ⟨l, hl, hk⟩ := List.mem_flatMap.mp hmem
          rcases List.mem_cons.mp hk with heq | hk2
          · exact absurd heq (wgStRx_ne cfg _ _)
          rcases List.mem_cons.mp hk2 with heq | hk3
          · exact absurd heq (wgStTx_ne cfg _ _)
          rcases List.mem_singleton.mp hk3 with heq
          exact absurd heq (wgStHs_ne cfg _)
        · refine List.nodup_flatMap.mpr ⟨fun l _ => peerKeys_nodup cfg l, ?_⟩
          have hpw : (wfRecords out).Pairwise fun a b => recKey a ≠ recKey b :=
            List.pairwise_map.mp hnd
          refine List.Pairwise.imp_of_mem ?_ hpw
          intro a b ha hb hne k hk1 hk2
          have hqa : '"' ∉ (recKey a).data := (hprops a ha).1
          have hqb : '"' ∉ (recKey b).data := (hprops b hb).1
          rcases List.mem_cons.mp hk1 with rfl | hk1b
          · rcases List.mem_cons.mp hk2 with heq | hk2b
            · exact hne (wgRxKey_inj cfg hqa hqb heq)
            rcases List.mem_cons.mp hk2b with heq | hk2c
            · exact absurd heq (wgRxTx_ne cfg _ _ _ _)
            rcases List.mem_singleton.mp hk2c with heq
            exact absurd heq (wgRxHs_ne cfg _ _ _)
          rcases List.mem_cons.mp hk1b with rfl | hk1c
          · rcases List.mem_cons.mp hk2 with heq | hk2b
            · exact absurd heq.symm (wgRxTx_ne cfg _ _ _ _)
            rcases List.mem_cons.mp hk2b with heq | hk2c
            · exact hne (wgTxKey_inj cfg hqa hqb heq)
            rcases List.mem_singleton.mp hk2c with heq
            exact absurd heq (wgTxHs_ne cfg _ _ _)
          rcases List.mem_singleton.mp hk1c with rfl
          rcases List.mem_cons.mp hk2 with heq | hk2b
          · exact absurd heq.symm (wgRxHs_ne cfg _ _ _)
          rcases List.mem_cons.mp hk2b with heq | hk2c
          · exact absurd heq.symm (wgTxHs_ne cfg _ _ _)
          rcases List.mem_singleton.mp hk2c with heq
          exact hne (wgHsKey_inj cfg hqa hqb heq)
      · rw [hkeys]
        intro k hk
        rcases List.mem_cons.mp hk with rfl | hk2
        · rw [show (wgStatusKey cfg).take 30 =
            ("vpn_tunnel_status\x7bvpn_type=\"wireguard\",interface=\"").data.take 30 from rfl]
          decide
        · obtain ⟨l, hl, hk3⟩ := List.mem_flatMap.mp hk2
          rcases List.mem_cons.mp hk3 with rfl | hk4
          · rw [show (wgRxKey cfg (recKey l) (endpointOf l)).take 30 =
              ("wireguard_peer_receive_bytes_total\x7binterface=\"").data.take 30 from rfl]
            decide
          rcases List.mem_cons.mp hk4 with rfl | hk5
          · rw [show (wgTxKey cfg (recKey l) (endpointOf l)).take 30 =
              ("wireguard_peer_transmit_bytes_total\x7binterface=\"").data.take 30 from rfl]
            decide
          rcases List.mem_singleton.mp hk5 with rfl
          rw [show (wgHsKey cfg (recKey l)).take 30 =
            ("wireguard_peer_last_handshake_seconds\x7binterface=\"").data.take 30 from rfl]
          decide
    · have hcol : collect_wireguard_metrics cfg (.completed rc out) =
          [wgStatusLine cfg ("0")] := by
        simp [collect_wireguard_metrics, hrc]
      rw [hcol]
      refine ⟨?_, ?_, ?_⟩
      · simp [List.filter_cons, isSample_wgStatus cfg ("0")]
      · simp
      · intro k hk
        simp only [List.map_cons, List.map_nil, List.mem_singleton] at hk
        rw [hk, lineKey_wgStatus cfg ("0") (by decide),
          show (wgStatusKey cfg).take 30 =
            ("vpn_tunnel_status\x7bvpn_type=\"wireguard\",interface=\"").data.take 30 from rfl]
        decide

theorem flatMap_filterMap {α β γ : Type} (h : α → Option β) (g : β → List γ) :
    ∀ l : List α,
      (l.flatMap fun x => match h x with | some b => g b | none => []) =
        (l.filterMap h).flatMap g := by
  intro l
  induction l with
  | nil => rfl
  | cons a as ih =>
    rcases ha : h a with - | b
    · simp [List.flatMap_cons, List.filterMap_cons, ha, ih]
    · simp [List.flatMap_cons, List.filterMap_cons, ha, ih]

theorem ips_block (cfg : Config) (r : ProbeResult) :
    (collect_ipsec_metrics cfg r).filter isSampleLine = collect_ipsec_metrics cfg r ∧
    ((collect_ipsec_metrics cfg r).map lineKey).Nodup ∧
    (∀ k ∈ (collect_ipsec_metrics cfg r).map lineKey, k.take 30 ∈ ipsTagList) := by
  by_cases hc : cfg.ipsec_check = true
  case neg =>
    have hcf : cfg.ipsec_check = false := by simpa using hc
    have hcol : collect_ipsec_metrics cfg r = [] := by
      simp [collect_ipsec_metrics, hcf]
    rw [hcol]
    exact ⟨rfl, List.nodup_nil, by simp⟩
  case pos =>
  match r with
  | .fileNotFound =>
    have hcol : collect_ipsec_metrics cfg .fileNotFound =
        [ipsecStatusLine ("0"), ipsecErrLine ("ipsec_not_found")] := by
      simp [collect_ipsec_metrics, hc]
    rw [hcol]
    refine ⟨by decide, by decide, by decide⟩
  | .timeout =>
    have hcol : collect_ipsec_metrics cfg .timeout = [ipsecErrLine ("timeout")] := by
      simp [collect_ipsec_metrics, hc]
    rw [hcol]
    refine ⟨by decide, by decide, by decide⟩
  | .exception =>
    have hcol : collect_ipsec_metrics cfg .exception = [ipsecErrLine ("exception")] := by
      simp [collect_ipsec_metrics, hc]
    rw [hcol]
    refine ⟨by decide, by decide, by decide⟩
  | .completed rc out =>
    by_cases hrc : rc = 0
    case neg =>
      have hcol : collect_ipsec_metrics cfg (.completed rc out) = [ipsecStatusLine ("0")] := by
        simp [collect_ipsec_metrics, hc, hrc]
      rw [hcol]
      refine ⟨by decide, by decide, by decide⟩
    case pos =>
    subst hrc
    have hv : ' ' ∉
        ((if pyCount out ("ESTABLISHED") > 0 then ("1") else ("0")) : String).data := by
      split_ifs <;> decide
    have hK1 : lineKey (ipsecStatusLine
        (if pyCount out ("ESTABLISHED") > 0 then ("1") else ("0"))) =
        ("vpn_tunnel_status\x7bvpn_type=\"ipsec\"\x7d").data := by
      unfold ipsecStatusLine
      exact lineKey_prefix_line (by decide) hv
    have hK2 : lineKey ("ipsec_connections_established " ++
        natRepr (pyCount out ("ESTABLISHED"))) =
        ("ipsec_connections_established").data :=
      lineKey_prefix_line (by decide) (natRepr_no_space _)
    have hK3 : lineKey ("ipsec_sas_installed " ++ natRepr (pyCount out ("INSTALLED"))) =
        ("ipsec_sas_installed").data :=
      lineKey_prefix_line (by decide) (natRepr_no_space _)
    have hS1 : isSampleLine (ipsecStatusLine
        (if pyCount out ("ESTABLISHED") > 0 then ("1") else ("0"))) = true := by
      unfold ipsecStatusLine
      exact isSample_lit_append _ _ (by decide) (by decide)
    have hS2 : isSampleLine ("ipsec_connections_established " ++
        natRepr (pyCount out ("ESTABLISHED"))) = true :=
      isSample_lit_append _ _ (by decide) (by decide)
    have hS3 : isSampleLine ("ipsec_sas_installed " ++
        natRepr (pyCount out ("INSTALLED"))) = true :=
      isSample_lit_append _ _ (by decide) (by decide)
    rcases hm1 : reSearchNum (("bytes_i").data) out.data with - | g1 <;>
      rcases hm2 : reSearchNum (("bytes_o").data) out.data with - | g2
    · have hcol : collect_ipsec_metrics cfg (.completed 0 out) =
          [ipsecStatusLine (if pyCount out ("ESTABLISHED") > 0 then ("1") else ("0")),
           "ipsec_connections_established " ++ natRepr (pyCount out ("ESTABLISHED")),
           "ipsec_sas_installed " ++ natRepr (pyCount out ("INSTALLED"))] := by
        simp [collect_ipsec_metrics, hc, hm1, hm2]
      rw [hcol]
      refine ⟨?_, ?_, ?_⟩
      · refine List.filter_eq_self.mpr ?_
        intro x hx
        simp only [List.mem_cons, List.not_mem_nil, or_false] at hx
        rcases hx with rfl | rfl | rfl
        exacts [hS1, hS2, hS3]
      · simp only [List.map_cons, List.map_nil, hK1, hK2, hK3]
        decide
      · simp only [List.map_cons, List.map_nil, hK1, hK2, hK3]
        decide
    · have hg2 : ' ' ∉ (String.mk g2).data := fun hm =>
        isPyDigit_ne_space (reSearchNum_digits hm2 ' ' hm) rfl
      have hK5 : lineKey ("ipsec_transmit_bytes_total " ++ String.mk g2) =
          ("ipsec_transmit_bytes_total").data :=
        lineKey_prefix_line (by decide) hg2
      have hS5 : isSampleLine ("ipsec_transmit_bytes_total " ++ String.mk g2) = true :=
        isSample_lit_append _ _ (by decide) (by decide)
      have hcol : collect_ipsec_metrics cfg (.completed 0 out) =
          [ipsecStatusLine (if pyCount out ("ESTABLISHED") > 0 then ("1") else ("0")),
           "ipsec_connections_established " ++ natRepr (pyCount out ("ESTABLISHED")),
           "ipsec_sas_installed " ++ natRepr (pyCount out ("INSTALLED")),
           "ipsec_transmit_bytes_total " ++ String.mk g2] := by
        simp [collect_ipsec_metrics, hc, hm1, hm2]
      rw [hcol]
      refine ⟨?_, ?_, ?_⟩
      · refine List.filter_eq_self.mpr ?_
        intro x hx
        simp only [List.mem_cons, List.not_mem_nil, or_false] at hx
        rcases hx with rfl | rfl | rfl | rfl
        exacts [hS1, hS2, hS3, hS5]
      · simp only [List.map_cons, List.map_nil, hK1, hK2, hK3, hK5]
        decide
      · simp only [List.map_cons, List.map_nil, hK1, hK2, hK3, hK5]
        decide
    · have hg1 : ' ' ∉ (String.mk g1).data := fun hm =>
        isPyDigit_ne_space (reSearchNum_digits hm1 ' ' hm) rfl
      have hK4 : lineKey ("ipsec_receive_bytes_total " ++ String.mk g1) =
          ("ipsec_receive_bytes_total").data :=
        lineKey_prefix_line (by decide) hg1
      have hS4 : isSampleLine ("ipsec_receive_bytes_total " ++ String.mk g1) = true :=
        isSample_lit_append _ _ (by decide) (by decide)
      have hcol : collect_ipsec_metrics cfg (.completed 0 out) =
          [ipsecStatusLine (if pyCount out ("ESTABLISHED") > 0 then ("1") else ("0")),
           "ipsec_connections_established " ++ natRepr (pyCount out ("ESTABLISHED")),
           "ipsec_sas_installed " ++ natRepr (pyCount out ("INSTALLED")),
           "ipsec_receive_bytes_total " ++ String.mk g1] := by
        simp [collect_ipsec_metrics, hc, hm1, hm2]
      rw [hcol]
      refine ⟨?_, ?_, ?_⟩
      · refine List.filter_eq_self.mpr ?_
        intro x hx
        simp only [List.mem_cons, List.not_mem_nil, or_false] at hx
        rcases hx with rfl | rfl | rfl | rfl
        exacts [hS1, hS2, hS3, hS4]
      · simp only [List.map_cons, List.map_nil, hK1, hK2, hK3, hK4]
        decide
      · simp only [List.map_cons, List.map_nil, hK1, hK2, hK3, hK4]
        decide
    · have hg1 : ' ' ∉ (String.mk g1).data := fun hm =>
        isPyDigit_ne_space (reSearchNum_digits hm1 ' ' hm) rfl
      have hg2 : ' ' ∉ (String.mk g2).data := fun hm =>
        isPyDigit_ne_space (reSearchNum_digits hm2 ' ' hm) rfl
      have hK4 : lineKey ("ipsec_receive_bytes_total " ++ String.mk g1) =
          ("ipsec_receive_bytes_total").data :=
        lineKey_prefix_line (by decide) hg1
      have hK5 : lineKey ("ipsec_transmit_bytes_total " ++ String.mk g2) =
          ("ipsec_transmit_bytes_total").data :=
        lineKey_prefix_line (by decide) hg2
      have hS4 : isSampleLine ("ipsec_receive_bytes_total " ++ String.mk g1) = true :=
        isSample_lit_append _ _ (by decide) (by decide)
      have hS5 : isSampleLine ("ipsec_transmit_bytes_total " ++ String.mk g2) = true :=
        isSample_lit_append _ _ (by decide) (by decide)
      have hcol : collect_ipsec_metrics cfg (.completed 0 out) =
          [ipsecStatusLine (if pyCount out ("ESTABLISHED") > 0 then ("1") else ("0")),
           "ipsec_connections_established " ++ natRepr (pyCount out ("ESTABLISHED")),
           "ipsec_sas_installed " ++ natRepr (pyCount out ("INSTALLED")),
           "ipsec_receive_bytes_total " ++ String.mk g1,
           "ipsec_transmit_bytes_total " ++ String.mk g2] := by
        simp [collect_ipsec_metrics, hc, hm1, hm2]
      rw [hcol]
      refine ⟨?_, ?_, ?_⟩
      · refine List.filter_eq_self.mpr ?_
        intro x hx
        simp only [List.mem_cons, List.not_mem_nil, or_false] at hx
        rcases hx with rfl | rfl | rfl | rfl | rfl
        exacts [hS1, hS2, hS3, hS4, hS5]
      · simp only [List.map_cons, List.map_nil, hK1, hK2, hK3, hK4, hK5]
        decide
      · simp only [List.map_cons, List.map_nil, hK1, hK2, hK3, hK4, hK5]
        decide

theorem net_block (nd : Option String) (hok : ∀ c, nd = some c → netTableOk c) :
    (collect_network_interface_metrics nd).filter isSampleLine =
      collect_network_interface_metrics nd ∧
    ((collect_network_interface_metrics nd).map lineKey).Nodup ∧
    (∀ k ∈ (collect_network_interface_metrics nd).map lineKey,
      k.take 30 ∈ netTagList) := by
  match nd with
  | none =>
    have hcol : collect_network_interface_metrics none = [netErrLine] := rfl
    rw [hcol]
    refine ⟨by decide, by decide, by decide⟩
  | some c =>
    obtain ⟨hnd, hq⟩ := hok c rfl
    have hcol : collect_network_interface_metrics (some c) =
        ((pyReadLines c).drop 2).flatMap netLine := rfl
    have hline : ∀ l, (netLine l).map lineKey =
        (match netIfaceOf l with
         | some i => netKeys6 i
         | none => ([] : List (List Char))) := by
      intro l
      rcases hio : netIfaceOf l with - | i
      · simp [netLine_none hio, hio]
      · rw [netLine_some hio]
        simp only [hio]
        simp only [List.map_cons, List.map_nil,
          lineKey_net ("rx_bytes") i _ (statOf_no_space l 0),
          lineKey_net ("tx_bytes") i _ (statOf_no_space l 8),
          lineKey_net ("rx_packets") i _ (statOf_no_space l 1),
          lineKey_net ("tx_packets") i _ (statOf_no_space l 9),
          lineKey_net ("rx_errors") i _ (statOf_no_space l 2),
          lineKey_net ("tx_errors") i _ (statOf_no_space l 10)]
        rfl
    have hfm : ∀ l : List String,
        (l.flatMap fun a => (netLine a).map lineKey) =
          (l.filterMap netIfaceOf).flatMap netKeys6 := by
      intro l
      induction l with
      | nil => rfl
      | cons a as ih =>
        rcases ha : netIfaceOf a with - | i
        · simp [List.flatMap_cons, List.filterMap_cons, ha, ih, netLine_none ha]
        · simp only [List.flatMap_cons, List.filterMap_cons, ha, ih, hline a, ha]
    have hkeys : (((pyReadLines c).drop 2).flatMap netLine).map lineKey =
        (matchingIfaces c).flatMap netKeys6 := by
      rw [List.map_flatMap]
      exact hfm _
    rw [hcol]
    refine ⟨?_, ?_, ?_⟩
    · refine List.filter_eq_self.mpr ?_
      intro x hx
      obtain ⟨l, -, hxl⟩ := List.mem_flatMap.mp hx
      rcases hio : netIfaceOf l with - | i
      · rw [netLine_none hio] at hxl
        simp at hxl
      · rw [netLine_some hio] at hxl
        simp only [List.mem_cons, List.not_mem_nil, or_false] at hxl
        rcases hxl with rfl | rfl | rfl | rfl | rfl | rfl <;> exact isSample_net _ _ _
    · rw [hkeys]
      refine List.nodup_flatMap.mpr ⟨fun i _ => netKeys6_nodup i, ?_⟩
      refine List.Pairwise.imp_of_mem ?_ hnd
      intro a b ha hb hne k hk1 hk2
      simp only [netKeys6, List.mem_cons, List.not_mem_nil, or_false] at hk1 hk2
      rcases hk1 with rfl | rfl | rfl | rfl | rfl | rfl <;>
        rcases hk2 with heq | heq | heq | heq | heq | heq <;>
        first
          | exact hne (netKey_inj _ (hq a ha) (hq b hb) heq)
          | exact absurd (netKey_kind_inj (by decide) (by decide) heq) (by decide)
    · rw [hkeys]
      intro k hk
      obtain ⟨i, -, hk2⟩ := List.mem_flatMap.mp hk
      simp only [netKeys6, List.mem_cons, List.not_mem_nil, or_false] at hk2
      rcases hk2 with rfl | rfl | rfl | rfl | rfl | rfl
      · rw [show (netKey ("rx_bytes") i).take 30 =
          ("vpn_interface_rx_bytes\x7binterface=\"").data.take 30 from rfl]
        decide
      · rw [show (netKey ("tx_bytes") i).take 30 =
          ("vpn_interface_tx_bytes\x7binterface=\"").data.take 30 from rfl]
        decide
      · rw [show (netKey ("rx_packets") i).take 30 =
          ("vpn_interface_rx_packets\x7binterface=\"").data.take 30 from rfl]
        decide
      · rw [show (netKey ("tx_packets") i).take 30 =
          ("vpn_interface_tx_packets\x7binterface=\"").data.take 30 from rfl]
        decide
      · rw [show (netKey ("rx_errors") i).take 30 =
          ("vpn_interface_rx_errors\x7binterface=\"").data.take 30 from rfl]
        decide
      · rw [show (netKey ("tx_errors") i).take 30 =
          ("vpn_interface_tx_errors\x7binterface=\"").data.take 30 from rfl]
        decide

theorem lat_block (ping : String → ProbeResult) :
    (collect_latency_metrics ping).filter isSampleLine = collect_latency_metrics ping ∧
    ((collect_latency_metrics ping).map lineKey).Nodup ∧
    (∀ k ∈ (collect_latency_metrics ping).map lineKey, k.take 30 ∈ latTagList) := by
  have hcol : collect_latency_metrics ping =
      latencySample ping ((("10.10.10.2") : String), (("wireguard") : String)) := by
    simp [collect_latency_metrics, ping_targets]
  rw [hcol]
  unfold latencySample
  rcases hp : ping (("10.10.10.2"), ("wireguard")).1 with ⟨rc, pout⟩ | - | - | -
  case fileNotFound => exact ⟨rfl, List.nodup_nil, by simp⟩
  case timeout => exact ⟨rfl, List.nodup_nil, by simp⟩
  case exception => exact ⟨rfl, List.nodup_nil, by simp⟩
  case completed =>
  dsimp only
  by_cases hrc : rc = 0
  case neg =>
    rw [if_neg hrc]
    exact ⟨rfl, List.nodup_nil, by simp⟩
  case pos =>
  subst hrc
  rw [if_pos rfl]
  rcases hps : pingSearch pout.data with - | g
  · exact ⟨rfl, List.nodup_nil, by simp⟩
  · dsimp only
    rcases hfc : pyFloatCanon g with - | v
    · exact ⟨rfl, List.nodup_nil, by simp⟩
    · have hv : ' ' ∉ v.data := pyFloatCanon_no_space hfc
      refine ⟨?_, List.nodup_singleton _, ?_⟩
      · simp [List.filter_cons, isSample_latency v]
      · intro k hk
        simp only [List.map_cons, List.map_nil, List.mem_singleton] at hk
        rw [hk, lineKey_latency v hv]
        decide

theorem tail_block (clock : Nat) :
    (tailLines clock).filter isSampleLine =
      [("vpn_exporter_info\x7bversion=\"1.0.0\"\x7d 1"),
       "vpn_exporter_scrape_timestamp " ++ natRepr clock] ∧
    (((tailLines clock).filter isSampleLine).map lineKey).Nodup ∧
    (∀ k ∈ ((tailLines clock).filter isSampleLine).map lineKey,
      k.take 30 ∈ tailTagList) := by
  have hts : isSampleLine ("vpn_exporter_scrape_timestamp " ++ natRepr clock) = true :=
    isSample_lit_append _ _ (by decide) (by decide)
  have h1 : isSampleLine ("# HELP vpn_exporter_info VPN metrics exporter info") = false := by
    decide
  have h2 : isSampleLine ("# TYPE vpn_exporter_info gauge") = false := by decide
  have h3 : isSampleLine ("vpn_exporter_info\x7bversion=\"1.0.0\"\x7d 1") = true := by decide
  have hfil : (tailLines clock).filter isSampleLine =
      [("vpn_exporter_info\x7bversion=\"1.0.0\"\x7d 1"),
       "vpn_exporter_scrape_timestamp " ++ natRepr clock] := by
    simp [tailLines, List.filter_cons, hts, h1, h2, h3]
  rw [hfil]
  have hK6 : lineKey ("vpn_exporter_scrape_timestamp " ++ natRepr clock) =
      ("vpn_exporter_scrape_timestamp").data :=
    lineKey_prefix_line (by decide) (natRepr_no_space _)
  refine ⟨rfl, ?_, ?_⟩
  · simp only [List.map_cons, List.map_nil, hK6]
    decide
  · simp only [List.map_cons, List.map_nil, hK6]
    decide

theorem header_filter : headerLines.filter isSampleLine = [] := by
  decide

theorem nodup_five {A B C D E : List (List Char)} {TA TB TC TD TE : List (List Char)}
    (na : A.Nodup) (nb : B.Nodup) (nc : C.Nodup) (nd : D.Nodup) (ne' : E.Nodup)
    (ta : ∀ a ∈ A, a.take 30 ∈ TA) (tb : ∀ b ∈ B, b.take 30 ∈ TB)
    (tc : ∀ c ∈ C, c.take 30 ∈ TC) (td : ∀ d ∈ D, d.take 30 ∈ TD)
    (te : ∀ e ∈ E, e.take 30 ∈ TE)
    (hab : ∀ x ∈ TA, x ∉ TB) (hac : ∀ x ∈ TA, x ∉ TC) (had : ∀ x ∈ TA, x ∉ TD)
    (hae : ∀ x ∈ TA, x ∉ TE) (hbc : ∀ x ∈ TB, x ∉ TC) (hbd : ∀ x ∈ TB, x ∉ TD)
    (hbe : ∀ x ∈ TB, x ∉ TE) (hcd : ∀ x ∈ TC, x ∉ TD) (hce : ∀ x ∈ TC, x ∉ TE)
    (hde : ∀ x ∈ TD, x ∉ TE) :
    (A ++ (B ++ (C ++ (D ++ E)))).Nodup := by
  rw [List.nodup_append]
  refine ⟨na, ?_, ?_⟩
  · rw [List.nodup_append]
    refine ⟨nb, ?_, ?_⟩
    · rw [List.nodup_append]
      refine ⟨nc, ?_, ?_⟩
      · rw [List.nodup_append]
        exact ⟨nd, ne', disjoint_of_tags td te hde⟩
      · rw [List.disjoint_append_right]
        exact ⟨disjoint_of_tags tc td hcd, disjoint_of_tags tc te hce⟩
    · rw [List.disjoint_append_right, List.disjoint_append_right]
      exact ⟨disjoint_of_tags tb tc hbc, disjoint_of_tags tb td hbd,
        disjoint_of_tags tb te hbe⟩
  · rw [List.disjoint_append_right, List.disjoint_append_right,
      List.disjoint_append_right]
    exact ⟨disjoint_of_tags ta tb hab, disjoint_of_tags ta tc hac,
      disjoint_of_tags ta td had, disjoint_of_tags ta te hae⟩

/-- C5 amended: `collect_all` performs no deduplication, so duplicate
(name, label-set) pairs pass through silently when a parser produces them
(see the counterexample with a repeated truncated key); uniqueness of every
(name, label-set) pair in a snapshot does hold whenever the parsed records
carry distinct identifying labels — pairwise-distinct quote-free truncated
public keys with space-free counter fields in a successful wireguard dump,
and pairwise-distinct quote-free interface names in the kernel table. -/
theorem c5_amended_snapshot_keys_unique (cfg : Config) (st : SystemState)
    (hwg : ∀ rc out, st.wg = .completed rc out → rc = 0 → wgDumpOk out)
    (hnet : ∀ c, st.netdev = some c → netTableOk c) :
    (snapshotKeys cfg st).Nodup := by
  obtain ⟨wf1, wn1, wt1⟩ := wg_block cfg st.wg hwg
  obtain ⟨if1, in1, it1⟩ := ips_block cfg st.ipsec
  obtain ⟨nf1, nn1, nt1⟩ := net_block st.netdev hnet
  obtain ⟨lf1, ln1, lt1⟩ := lat_block st.ping
  obtain ⟨tf1, tn1, tt1⟩ := tail_block st.clock
  rw [tf1] at tn1 tt1
  unfold snapshotKeys collect_all_lines
  simp only [List.filter_append, List.map_append, List.append_assoc]
  rw [header_filter, wf1, if1, nf1, lf1, tf1]
  simp only [List.map_nil, List.nil_append]
  exact nodup_five wn1 in1 nn1 ln1 tn1 wt1 it1 nt1 lt1 tt1
    (by decide) (by decide) (by decide) (by decide) (by decide)
    (by decide) (by decide) (by decide) (by decide) (by decide)

/-- A two-line kernel counter table with one matching (`wg0`) and one
non-matching (`lo`) interface. -/
def netTableSample : String :=
  "Inter-|   Receive|  Transmit\n face |bytes    packets|bytes    packets\n  wg0: 1000 10 0 0 0 0 0 0 2000 20 0 0 0 0 0 0\n    lo: 555 5 0 0 0 0 0 0 555 5 0 0 0 0 0 0\n"

/-- A scrape state in which every probe succeeds with realistic output. -/
def richState : SystemState :=
  { wg := .completed 0 wgDumpSample,
    ipsec := .completed 0 ikeSampleText,
    netdev := some netTableSample,
    ping := fun _ => .completed 0 ("rtt min/avg/max/mdev = 0.045/0.520/0.061/0.007 ms"),
    clock := 1712 }

set_option maxRecDepth 16000 in
/-- C5 witness: a fully successful scrape with distinct peer keys and
distinct interfaces has pairwise-distinct (name, label-set) pairs. -/
theorem c5_amended_witness : (snapshotKeys defaultConfig richState).Nodup :=
  c5_amended_snapshot_keys_unique defaultConfig richState
    (by
      intro rc out h hrc
      cases h
      unfold wgDumpOk
      decide)
    (by
      intro c h
      cases h
      unfold netTableOk
      decide)

/-- A dump whose two well-formed peer records have distinct public keys
that share their first 12 characters, so the truncated labels collide. -/
def wgCollidingDump : String :=
  "wg0 priv pub 51820 off\nAAAABBBBCCCC-one\t(none)\t1.2.3.4:51820\t10.0.0.2/32\t1700\t11\t22\t25\nAAAABBBBCCCC-two\t(none)\t1.2.3.4:51820\t10.0.0.3/32\t1800\t33\t44\t25"

set_option maxRecDepth 16000 in
/-- C3 counterexample: on a dump whose two peer records carry public keys
sharing a 12-character prefix, the parser emits two distinct receive-byte
sample lines bearing the same (name, label-set) identifier — the claimed
unconditional uniqueness of the truncated-key labels fails. -/
theorem c3_counterexample :
    (wfRecords wgCollidingDump).length = 2 ∧
    ((collect_wireguard_metrics defaultConfig (.completed 0 wgCollidingDump)).filter
      (fun l => strLeads wgRxFam l)).Nodup ∧
    ¬ (((collect_wireguard_metrics defaultConfig (.completed 0 wgCollidingDump)).filter
        (fun l => strLeads wgRxFam l)).map lineKey).Nodup := by
  decide
